import Mathlib

/-!
Verification development for the Google Search Cleaner content script
(src/content.js).  The document is modelled flatly: a list of node ids in
document (preorder) order, a per-node kind (element data or text content),
and a per-node ancestor chain (nearest ancestor first).  CSS selectors used
by the script are modelled by a small AST covering exactly the constructs
that appear in the source (tag, id, class, attribute tests, descendant and
child combinators, and a has-descendant test).  Mutable page state (the
data-gsc-hidden dataset tag, the inline display style, and the document
tree including inserted reveal buttons) is threaded explicitly.
-/

namespace GSC

/-! ## String helpers mirroring the JavaScript string operations used -/

/-- Whitespace test for the JS trim operation. -/
def isWsChar (c : Char) : Bool :=
  c = ' ' || c = '\n' || c = '\t' || c = '\r' || c = '\x0c'

/-- JS String.prototype.trim. -/
def jsTrim (s : String) : String :=
  (((s.toList.dropWhile isWsChar).reverse.dropWhile isWsChar).reverse).asString

/-- JS String.prototype.toLowerCase (ASCII, as used by the script). -/
def jsLower (s : String) : String :=
  (s.toList.map Char.toLower).asString

/-- Decidable list-prefix test on characters. -/
def listPrefix : List Char → List Char → Bool
  | [], _ => true
  | _ :: _, [] => false
  | a :: as, b :: bs => a = b && listPrefix as bs

/-- JS String.prototype.startsWith: the second argument is the candidate
prefix of the first. -/
def jsStartsWith (s p : String) : Bool :=
  listPrefix p.toList s.toList

/-- Substring search on character lists. -/
def listIncludes (sub : List Char) : List Char → Bool
  | [] => listPrefix sub []
  | c :: cs => listPrefix sub (c :: cs) || listIncludes sub cs

/-- JS String.prototype.includes. -/
def jsIncludes (s sub : String) : Bool :=
  listIncludes sub.toList s.toList

/-! ## Selector AST

Just the CSS constructs appearing in the selector catalog of the source. -/

/-- A simple selector component matched against one element. -/
inductive SimpleSel where
  | tagIs (t : String)
  | idIs (i : String)
  | classIs (c : String)
  | attrEq (k v : String)
  | attrHas (k : String)
  | attrContains (k v : String)
deriving DecidableEq, Repr

/-- A (complex) selector: a compound of simple selectors, optionally
related to an ancestor selector by a descendant or child combinator, or
carrying a has-descendant test. -/
inductive Sel where
  | simple (cs : List SimpleSel)
  | descendant (a : Sel) (cs : List SimpleSel)
  | child (a : Sel) (cs : List SimpleSel)
  | withDesc (cs : List SimpleSel) (inner : List SimpleSel)
deriving DecidableEq, Repr

/-- A selector as fed to querySelectorAll: either parses to a selector or
throws a syntax error at query time (the invalid case). -/
inductive SelectorSpec where
  | ok (s : Sel)
  | invalid
deriving DecidableEq, Repr

/-- Returns true on the ok constructor. -/
def SelectorSpec.isOk : SelectorSpec → Bool
  | .ok _ => true
  | .invalid => false

/-! ## Flat document model -/

/-- Static data of an element node. -/
structure ElemInfo where
  tagName : String
  idAttr : String
  classes : List String
  attrs : List (String × String)
  shadow : Option (List Nat)
deriving DecidableEq, Repr

/-- A node is an element, a text node, or absent from the document. -/
inductive NKind where
  | elem (i : ElemInfo)
  | text (s : String)
  | absent
deriving DecidableEq, Repr

/-- The document: ids in document (preorder) order, the kind of each id,
and each node with its chain of ancestors, nearest first. -/
structure Doc where
  order : List Nat
  kind : Nat → NKind
  anc : Nat → List Nat

/-- Element test. -/
def isElemN (d : Doc) (n : Nat) : Bool :=
  match d.kind n with
  | .elem _ => true
  | _ => false

/-- The id attribute of a node (empty for non-elements). -/
def idOf (d : Doc) (n : Nat) : String :=
  match d.kind n with
  | .elem i => i.idAttr
  | _ => ""

/-- hasAttribute on a node. -/
def hasAttrN (d : Doc) (n : Nat) (k : String) : Bool :=
  match d.kind n with
  | .elem i => (i.attrs.lookup k).isSome
  | _ => false

/-- One simple selector against element data. -/
def matchesSimple (i : ElemInfo) : SimpleSel → Bool
  | .tagIs t => i.tagName = t
  | .idIs x => i.idAttr = x
  | .classIs c => i.classes.contains c
  | .attrEq k v => i.attrs.lookup k = some v
  | .attrHas k => (i.attrs.lookup k).isSome
  | .attrContains k v =>
      match i.attrs.lookup k with
      | some w => jsIncludes w v
      | none => false

/-- A compound selector against a node: text nodes match nothing. -/
def matchesCompound (d : Doc) (n : Nat) (cs : List SimpleSel) : Bool :=
  match d.kind n with
  | .elem i => cs.all (matchesSimple i)
  | _ => false

/-- Full selector matching, using the ancestor chain for combinators and
the document order list for the has-descendant test. -/
def matchesSel (d : Doc) (n : Nat) : Sel → Bool
  | .simple cs => matchesCompound d n cs
  | .descendant a cs =>
      matchesCompound d n cs && (d.anc n).any (fun x => matchesSel d x a)
  | .child a cs =>
      matchesCompound d n cs &&
        (match (d.anc n).head? with
         | some p => matchesSel d p a
         | none => false)
  | .withDesc cs inner =>
      matchesCompound d n cs &&
        d.order.any (fun m => (d.anc m).contains n && matchesCompound d m inner)

/-- document.querySelectorAll: all matching nodes in document order. -/
def querySelectorAll (d : Doc) (s : Sel) : List Nat :=
  d.order.filter (fun n => matchesSel d n s)

/-- document.querySelector: the first match in document order. -/
def querySelector (d : Doc) (s : Sel) : Option Nat :=
  (querySelectorAll d s).head?

/-- querySelectorAll with a comma-separated selector list: nodes matching
any of the selectors, still in document order. -/
def qsaMulti (d : Doc) (sels : List Sel) : List Nat :=
  d.order.filter (fun n => sels.any (fun s => matchesSel d n s))

/-- Element.closest with a single selector: nearest ancestor-or-self
matching it. -/
def closestSel (d : Doc) (el : Nat) (s : Sel) : Option Nat :=
  (el :: d.anc el).find? (fun a => matchesSel d a s)

/-- Element.closest with a comma-separated selector list. -/
def closestMulti (d : Doc) (el : Nat) (sels : List Sel) : Option Nat :=
  (el :: d.anc el).find? (fun a => sels.any (fun s => matchesSel d a s))

/-- Node.textContent of an element: concatenation, in document order, of
the text nodes in its subtree.  The script reads innerText with a
textContent fallback; both are modelled by this text. -/
def textContent (d : Doc) (n : Nat) : String :=
  String.join ((d.order.filter (fun m => m = n || (d.anc m).contains n)).filterMap
    (fun m => match d.kind m with | .text s => some s | _ => none))

/-! ## Selector catalog (the SELECTORS object of the source) -/

namespace SELECTORS

def aiOverview : List SelectorSpec :=
  [ .ok (.simple [.attrEq "data-async-type" "du_kg"]),
    .ok (.simple [.attrEq "data-attrid" "wa:/description"]),
    .ok (.simple [.idIs "arc-srp_1"]) ]

def forums : List SelectorSpec :=
  [ .ok (.descendant (.simple [.idIs "rso"]) [.tagIs "a", .attrContains "href" "reddit.com"]),
    .ok (.descendant (.simple [.idIs "rso"]) [.tagIs "a", .attrContains "href" "quora.com"]),
    .ok (.descendant (.simple [.idIs "rso"]) [.tagIs "a", .attrContains "href" "stackexchange.com"]),
    .ok (.descendant (.simple [.idIs "rso"]) [.tagIs "a", .attrContains "href" "stackoverflow.com"]) ]

def discussionSection : List SelectorSpec :=
  [ .ok (.simple [.attrContains "data-attrid" "discussion"]),
    .ok (.simple [.tagIs "div", .attrEq "jsname" "yEVEwb"]) ]

def peopleAlsoAsk : List SelectorSpec :=
  [ .ok (.simple [.attrEq "data-sgrd" "true"]),
    .ok (.simple [.attrHas "data-initq"]) ]

def shopping : List SelectorSpec :=
  [ .ok (.simple [.classIs "commercial-unit-desktop-top"]),
    .ok (.simple [.classIs "cu-container"]),
    .ok (.simple [.classIs "pla-unit-container"]),
    .ok (.simple [.classIs "sh-dgr__grid-result"]),
    .ok (.simple [.classIs "sh-pr__product-results"]),
    .ok (.descendant (.simple [.idIs "rso"]) [.attrContains "data-attrid" "kc:/shopping"]) ]

def videos : List SelectorSpec :=
  [ .ok (.simple [.tagIs "video-voyager"]),
    .ok (.withDesc [.tagIs "g-scrolling-carousel"] [.tagIs "a", .attrContains "href" "youtube.com"]),
    .ok (.withDesc [.tagIs "g-scrolling-carousel"] [.tagIs "a", .attrContains "href" "video"]),
    .ok (.simple [.attrContains "data-attrid" "video"]),
    .ok (.descendant (.descendant (.simple [.idIs "rso"]) [.attrHas "data-hveid"])
          [.tagIs "a", .attrContains "href" "youtube.com"]) ]

def sponsored : List SelectorSpec :=
  [ .ok (.simple [.classIs "ads-fr"]),
    .ok (.simple [.idIs "tads"]),
    .ok (.simple [.idIs "tadsb"]),
    .ok (.simple [.classIs "uEierd"]),
    .ok (.simple [.tagIs "div", .attrEq "data-text-ad" "1"]),
    .ok (.child (.simple [.idIs "rso"]) [.tagIs "div", .attrHas "data-sokoban-container"]) ]

end SELECTORS

/-! ## Preferences -/

/-- The preference set: six category flags plus the paid flag. -/
structure Prefs where
  hideAI : Bool
  hideForums : Bool
  hidePeopleAlsoAsk : Bool
  hideShopping : Bool
  hideVideos : Bool
  hideSponsored : Bool
  isPaid : Bool
deriving DecidableEq, Repr

/-- DEFAULT_PREFS of the source. -/
def DEFAULT_PREFS : Prefs :=
  { hideAI := true, hideForums := false, hidePeopleAlsoAsk := false,
    hideShopping := false, hideVideos := false, hideSponsored := false,
    isPaid := false }

/-! ## Page state

The mutable state: the document tree (reveal buttons are inserted into and
removed from it), the per-node data-gsc-hidden dataset value, the per-node
inline display value, the cached preference set (the global currentState),
and a supply of fresh ids for created button nodes. -/

structure St where
  doc : Doc
  prefs : Prefs
  gsc : Nat → Option String
  display : Nat → String
  nextId : Nat

/-! ## findElements -/

/-- Appends the elements of the second list to the accumulator, skipping
those already present (the includes/push loop of the source). -/
def addUnique (found : List Nat) (l : List Nat) : List Nat :=
  l.foldl (fun f el => if f.contains el then f else f ++ [el]) found

/-- findElements: runs each selector of the array, skipping invalid ones
(the try/catch), collecting matches without duplicates. -/
def findElements (d : Doc) (arr : List SelectorSpec) : List Nat :=
  arr.foldl
    (fun found spec =>
      match spec with
      | .invalid => found
      | .ok s => addUnique found (querySelectorAll d s))
    []

/-! ## Safety guard -/

/-- The fixed protected-region selector list of isSafeToHide. -/
def forbiddenSelectors : List Sel :=
  [ .simple [.idIs "gb"],
    .simple [.idIs "searchform"],
    .simple [.tagIs "header"],
    .simple [.attrEq "role" "navigation"],
    .simple [.idIs "top_nav"],
    .simple [.classIs "sfbg"] ]

/-- isSafeToHide: false when the node or an ancestor matches a protected
selector.  The element.matches and element.closest guards of the source
make both checks vacuous on non-element nodes. -/
def isSafeToHide (d : Doc) (el : Nat) : Bool :=
  forbiddenSelectors.all (fun sel =>
    !(isElemN d el && matchesSel d el sel) &&
    !(isElemN d el && (closestSel d el sel).isSome))

/-! ## Heuristic locator: findAIOverviewContainer -/

/-- Method 1 selector list (data attributes). -/
def dataSelectors : List Sel :=
  [ .simple [.attrEq "data-async-type" "du_kg"],
    .simple [.attrEq "data-attrid" "wa:/description"],
    .simple [.attrContains "data-async-context" "ai_overview"] ]

/-- Method 1: first hit of the data-attribute probes. -/
def method1 (d : Doc) : Option Nat :=
  dataSelectors.findSome? (fun sel => querySelector d sel)

/-- The shadow-host query of method 2. -/
def shadowHostSels : List Sel :=
  [ .simple [.tagIs "search-as-you-type"],
    .simple [.tagIs "ai-overview-container"],
    .simple [.attrHas "data-component"] ]

/-- The probe run inside a shadow root by method 2. -/
def shadowProbeSels : List Sel :=
  [ .simple [.attrEq "data-async-type" "du_kg"],
    .simple [.classIs "container"] ]

/-- shadowRoot.querySelector of method 2: first node of the shadow subtree
matching the probe. -/
def shadowProbe (d : Doc) (host : Nat) : Option Nat :=
  match d.kind host with
  | .elem i =>
      match i.shadow with
      | some ids => ids.find? (fun m => shadowProbeSels.any (fun s => matchesSel d m s))
      | none => none
  | _ => none

/-- Method 2: for each shadow host, probe inside; on a hit return the host
element itself. -/
def method2 (d : Doc) : Option Nat :=
  (qsaMulti d shadowHostSels).findSome?
    (fun host => if (shadowProbe d host).isSome then some host else none)

/-- The heading query of method 3. -/
def headingSelsAll : List Sel :=
  [ .simple [.tagIs "h1"], .simple [.tagIs "h2"], .simple [.tagIs "h3"],
    .simple [.tagIs "div", .attrEq "role" "heading"],
    .simple [.attrHas "aria-level"] ]

/-- The closest call of method 3. -/
def closest3Sels : List Sel :=
  [ .simple [.attrHas "data-async-context"],
    .simple [.attrHas "data-hveid"],
    .simple [.attrHas "data-ved"] ]

/-- The trimmed lowercased heading text read by method 3. -/
def headingText3 (d : Doc) (h : Nat) : String :=
  jsLower (jsTrim (textContent d h))

/-- The heading-text test of method 3. -/
def aiHeadingMatch (d : Doc) (h : Nat) : Bool :=
  headingText3 d h = "ai overview" || jsStartsWith (headingText3 d h) "ai overview"

/-- Is this id one of the results-region boundary containers. -/
def isBoundaryId (d : Doc) (n : Nat) : Bool :=
  idOf d n = "rso" || idOf d n = "center_col" || idOf d n = "rcnt"

/-- Does this node carry one of the two tracking attributes used by the
upward walks. -/
def trackAttr (d : Doc) (n : Nat) : Bool :=
  hasAttrN d n "data-async-context" || hasAttrN d n "data-hveid"

/-- The while loop shared by methods 3 and 4: ascend as long as the parent
carries a tracking attribute, returning the child of the first boundary
container met, otherwise the last attributed node reached. -/
def walkUpLoop (d : Doc) : Nat → List Nat → Nat
  | parent, [] => parent
  | parent, pp :: rest =>
      if isBoundaryId d pp then parent
      else if trackAttr d pp then walkUpLoop d pp rest
      else parent

/-- The fallback of method 3: up to six plain upward steps from the
heading, stopping at the first node with a tracking attribute. -/
def fallbackUp (d : Doc) : Nat → Nat → List Nat → Nat
  | el, 0, _ => el
  | el, _ + 1, [] => el
  | _, i + 1, p :: rest =>
      if trackAttr d p then p else fallbackUp d p i rest

/-- Method 3: scan headings for the AI Overview text; on the first match
walk up from the closest attributed ancestor, or take the bounded plain
walk when there is none. -/
def method3 (d : Doc) : Option Nat :=
  (qsaMulti d headingSelsAll).findSome? (fun h =>
    if aiHeadingMatch d h then
      some (match closestMulti d h closest3Sels with
            | some c => walkUpLoop d c (d.anc c)
            | none => fallbackUp d h 6 (d.anc h))
    else none)

/-- The TreeWalker of method 4: the first text node in document order whose
trimmed content is exactly the target phrase. -/
def firstAIText (d : Doc) : Option Nat :=
  d.order.find? (fun n =>
    match d.kind n with
    | .text s => jsTrim s = "AI Overview"
    | _ => false)

/-- The bounded upward scan of method 4 (at most ten nodes), entering the
shared while loop at the first attributed node. -/
def m4Loop (d : Doc) : Nat → Nat → List Nat → Option Nat
  | 0, _, _ => none
  | fuel + 1, el, rest =>
      if trackAttr d el then some (walkUpLoop d el rest)
      else
        match rest with
        | [] => none
        | p :: r => m4Loop d fuel p r

/-- Method 4: from the parent of the located text node, scan upward. -/
def method4 (d : Doc) : Option Nat :=
  match firstAIText d with
  | none => none
  | some tn =>
      match d.anc tn with
      | [] => none
      | p :: rest => m4Loop d 10 p rest

/-- findAIOverviewContainer: the four methods in order, first success
wins, null when all fail. -/
def findAIOverviewContainer (d : Doc) : Option Nat :=
  match method1 d with
  | some c => some c
  | none =>
      match method2 d with
      | some h => some h
      | none =>
          match method3 d with
          | some c => some c
          | none => method4 d

/-! ## Visibility controller: hideElement and the reveal button -/

/-- The hide strategy argument of hideElement. -/
inductive HideType where
  | ai
  | generic
deriving DecidableEq, Repr

/-- Element data of a created reveal button.  The random id suffix is
irrelevant to behaviour (the id is never queried); the cosmetic cssText
styling of the button is not modelled. -/
def buttonInfo : ElemInfo :=
  { tagName := "button", idAttr := "gsc-show-ai-btn-x",
    classes := ["gsc-show-ai-btn"], attrs := [], shadow := none }

/-- The label text of the reveal button. -/
def buttonLabel : String := "✨ Show AI Overview"

/-- Inserts node n immediately before the first occurrence of ref. -/
def insertBeforeList : List Nat → Nat → Nat → List Nat
  | [], _, _ => []
  | x :: xs, ref, n => if x = ref then n :: x :: xs else x :: insertBeforeList xs ref n

/-- Inserts a reveal button (element node btn with its label text child
btn+1) immediately before node ref. -/
def insertButton (d : Doc) (btn ref : Nat) : Doc :=
  { order := insertBeforeList (insertBeforeList d.order ref btn) ref (btn + 1),
    kind := fun m =>
      if m = btn then .elem buttonInfo
      else if m = btn + 1 then .text buttonLabel
      else d.kind m,
    anc := fun m =>
      if m = btn then d.anc ref
      else if m = btn + 1 then btn :: d.anc ref
      else d.anc m }

/-- hideElement: no-op on a null argument, on a node already tagged true,
and on a node the safety guard rejects; otherwise tags the node, for the
ai strategy inserts a reveal button before it (when it has a parent), and
suppresses its display. -/
def hideElement (s : St) (el? : Option Nat) (t : HideType) : St :=
  match el? with
  | none => s
  | some el =>
      if s.gsc el = some "true" then s
      else if isSafeToHide s.doc el = false then s
      else
        let s1 : St := { s with gsc := fun m => if m = el then some "true" else s.gsc m }
        match t with
        | .ai =>
            let btn := s1.nextId
            let s2 : St := { s1 with nextId := s1.nextId + 2 }
            let s3 : St :=
              if s2.doc.anc el = [] then s2
              else { s2 with doc := insertButton s2.doc btn el }
            { s3 with display := fun m => if m = el then "none" else s3.display m }
        | .generic =>
            { s1 with display := fun m => if m = el then "none" else s1.display m }

/-- The onclick handler of the reveal button: restore the display of the
element, retag it user-shown, and remove the button (with its text child)
from the document. -/
def revealAIOverview (s : St) (btn el : Nat) : St :=
  { s with
    display := fun m => if m = el then "" else s.display m,
    gsc := fun m => if m = el then some "user-shown" else s.gsc m,
    doc := { s.doc with
             order := s.doc.order.filter (fun n => !(n = btn || (s.doc.anc n).contains btn)) } }

/-! ## cleanSearch -/

/-- The single [data-hveid] selector used by the closest calls. -/
def hveidSel : Sel := .simple [.attrHas "data-hveid"]

/-- The g-scrolling-carousel selector of the videos branch. -/
def carouselSel : Sel := .simple [.tagIs "g-scrolling-carousel"]

/-- The h2/h3/heading-role query of the people-also-ask and videos
heading scans. -/
def headingSels23 : List Sel :=
  [ .simple [.tagIs "h2"], .simple [.tagIs "h3"],
    .simple [.tagIs "div", .attrEq "role" "heading"],
    .simple [.attrHas "aria-level"] ]

/-- The AI branch of cleanSearch: union of catalog matches and the
heuristic container, minus nodes tagged user-shown, each hidden with the
ai strategy. -/
def cleanAI (st : St) : St :=
  let ai0 := findElements st.doc SELECTORS.aiOverview
  let ai1 :=
    match findAIOverviewContainer st.doc with
    | some c => if ai0.contains c then ai0 else ai0 ++ [c]
    | none => ai0
  let ai2 := ai1.filter (fun el => !(st.gsc el = some "user-shown"))
  ai2.foldl (fun s el => hideElement s (some el) .ai) st

/-- The forums branch: each forum link resolves to its enclosing
[data-hveid] result block (skipped when absent), then the discussion
section selectors are hidden directly. -/
def cleanForums (st : St) : St :=
  let st1 := (findElements st.doc SELECTORS.forums).foldl
    (fun s el => hideElement s (closestSel s.doc el hveidSel) .generic) st
  (findElements st1.doc SELECTORS.discussionSection).foldl
    (fun s el => hideElement s (some el) .generic) st1

/-- The people-also-ask branch: direct selectors widened to the enclosing
[data-hveid] container when present, then a heading-text fail-safe scan. -/
def cleanPAA (st : St) : St :=
  let st1 := (findElements st.doc SELECTORS.peopleAlsoAsk).foldl
    (fun s el =>
      hideElement s
        (some (match closestSel s.doc el hveidSel with | some c => c | none => el))
        .generic) st
  (qsaMulti st1.doc headingSels23).foldl
    (fun s h =>
      let t := jsLower (jsTrim (textContent s.doc h))
      if t = "people also ask" || jsStartsWith t "people also ask" then
        hideElement s (closestSel s.doc h hveidSel) .generic
      else s) st1

/-- The shopping branch: direct hides of the catalog matches. -/
def cleanShopping (st : St) : St :=
  (findElements st.doc SELECTORS.shopping).foldl
    (fun s el => hideElement s (some el) .generic) st

/-- The videos branch: carousel matches resolve to the [data-hveid] block
around the carousel or its parent, other matches to their [data-hveid]
block or themselves, then a heading-text scan for video and watch. -/
def cleanVideos (st : St) : St :=
  let st1 := (findElements st.doc SELECTORS.videos).foldl
    (fun s el =>
      match closestSel s.doc el carouselSel with
      | some car =>
          hideElement s
            (match closestSel s.doc car hveidSel with
             | some c => some c
             | none => (s.doc.anc car).head?) .generic
      | none =>
          hideElement s
            (some (match closestSel s.doc el hveidSel with | some c => c | none => el))
            .generic) st
  (qsaMulti st1.doc headingSels23).foldl
    (fun s h =>
      let t := jsLower (textContent s.doc h)
      if jsIncludes t "video" || jsIncludes t "watch" then
        hideElement s (closestSel s.doc h hveidSel) .generic
      else s) st1

/-- The sponsored branch: direct hides of the catalog matches. -/
def cleanSponsored (st : St) : St :=
  (findElements st.doc SELECTORS.sponsored).foldl
    (fun s el => hideElement s (some el) .generic) st

/-- cleanSearch: read the cached preference snapshot once, gate on the
paid flag, then run the enabled category branches in source order. -/
def cleanSearch (st : St) : St :=
  let prefs := st.prefs
  if !prefs.isPaid then st
  else
    let st1 := if prefs.hideAI then cleanAI st else st
    let st2 := if prefs.hideForums then cleanForums st1 else st1
    let st3 := if prefs.hidePeopleAlsoAsk then cleanPAA st2 else st2
    let st4 := if prefs.hideShopping then cleanShopping st3 else st3
    let st5 := if prefs.hideVideos then cleanVideos st4 else st4
    if prefs.hideSponsored then cleanSponsored st5 else st5

/-! ## Resets, the periodic recheck, and the handlers -/

/-- Membership of the reveal-button class on a node. -/
def isBtnNode (d : Doc) (n : Nat) : Bool :=
  match d.kind n with
  | .elem i => i.classes.contains "gsc-show-ai-btn"
  | _ => false

/-- Removal of every reveal button (and its subtree) from the document:
the querySelectorAll over .gsc-show-ai-btn followed by btn.remove(). -/
def removeBtns (d : Doc) : Doc :=
  { d with order := d.order.filter (fun n => !(isBtnNode d n || (d.anc n).any (fun a => isBtnNode d a))) }

/-- The querySelectorAll over the data-gsc-hidden attribute performed by
the resets: the document elements whose dataset tag is set (to any
value). -/
def resetList (d : Doc) (gsc : Nat → Option String) : List Nat :=
  d.order.filter (fun n => isElemN d n && (gsc n).isSome)

/-- The per-node body of the reset loops: tag back to false, display
restored. -/
def resetNodeUpd (st : St) (n : Nat) : St :=
  { st with
    gsc := fun m => if m = n then some "false" else st.gsc m,
    display := fun m => if m = n then "" else st.display m }

/-- The shared reset used by the navigation tick and the preference-change
handler: remove every reveal button, then for every document element
carrying the data-gsc-hidden attribute set it to false and restore the
display. -/
def resetHiddenState (s : St) : St :=
  let d := removeBtns s.doc
  (resetList d s.gsc).foldl resetNodeUpd { s with doc := d }

/-- The aggressive periodic AI-overview recheck of init: when the cache is
paid and hideAI is on, locate the container and hide it unless tagged
true or user-shown. -/
def aiRecheck (st : St) : St :=
  if st.prefs.isPaid && st.prefs.hideAI then
    match findAIOverviewContainer st.doc with
    | some c =>
        if !(st.gsc c = some "true") && !(st.gsc c = some "user-shown") then
          hideElement st (some c) .ai
        else st
    | none => st
  else st

/-- The chrome.storage.onChanged listener: refresh the cached preference
set from the store, reset all hidden state, and when the refreshed cache
is paid re-run the full pass immediately and twice more with delays.  The
delayed repeats are modelled as the sequential runs the single-threaded
event loop performs. -/
def onPrefsChanged (store : Prefs) (st : St) : St :=
  let st1 : St := { st with prefs := store }
  let st2 := resetHiddenState st1
  if store.isPaid then cleanSearch (cleanSearch (cleanSearch st2)) else st2

/-- The URL-change branch of the polling interval in init: synchronously
reset all hidden state, and schedule four delayed cleanSearch passes (the
returned list of delays), which the event loop will run only after the
tick callback has completed. -/
def navUrlChanged (st : St) : St × List Nat :=
  (resetHiddenState st, [100, 300, 500, 1000])

/-- Runs the delayed passes queued by a navigation event. -/
def runDelayed (st : St) (delays : List Nat) : St :=
  delays.foldl (fun s _ => cleanSearch s) st

/-- A whole navigation event: the synchronous tick followed by its queued
delayed passes. -/
def navEvent (st : St) : St :=
  runDelayed (navUrlChanged st).1 (navUrlChanged st).2

/-! ## Specification predicates and proof-level combinators -/

/-- A hide target on which hideElement is guaranteed to be a no-op:
absent, already tagged true, or rejected by the safety guard. -/
def doneTgt (s : St) : Option Nat → Prop
  | none => True
  | some el => s.gsc el = some "true" ∨ isSafeToHide s.doc el = false

/-- The common shape of the generic (non-AI) hide loops of cleanSearch: a
left fold hiding, for each item, a target computed from the current
document. -/
def genericRun {α : Type} (F : Doc → α → Option Nat) (l : List α) (st : St) : St :=
  l.foldl (fun s x => hideElement s (F s.doc x) .generic) st

/-- Target of the forums link widening. -/
def forumsF1 (d : Doc) (el : Nat) : Option Nat := closestSel d el hveidSel

/-- Target that is the matched node itself. -/
def selfF (_ : Doc) (el : Nat) : Option Nat := some el

/-- Target of the people-also-ask widening: the [data-hveid] container
when present, otherwise the node itself. -/
def paaF1 (d : Doc) (el : Nat) : Option Nat :=
  some (match closestSel d el hveidSel with | some c => c | none => el)

/-- The heading-text condition of the people-also-ask fail-safe scan. -/
def paaHeadingCond (d : Doc) (h : Nat) : Bool :=
  let t := jsLower (jsTrim (textContent d h))
  t = "people also ask" || jsStartsWith t "people also ask"

/-- Target of the people-also-ask heading scan. -/
def paaHeadF (d : Doc) (h : Nat) : Option Nat :=
  if paaHeadingCond d h then closestSel d h hveidSel else none

/-- Target of the videos selector widening. -/
def vidF1 (d : Doc) (el : Nat) : Option Nat :=
  match closestSel d el carouselSel with
  | some car =>
      match closestSel d car hveidSel with
      | some c => some c
      | none => (d.anc car).head?
  | none => some (match closestSel d el hveidSel with | some c => c | none => el)

/-- The heading-text condition of the videos fail-safe scan. -/
def vidHeadingCond (d : Doc) (h : Nat) : Bool :=
  let t := jsLower (textContent d h)
  jsIncludes t "video" || jsIncludes t "watch"

/-- Target of the videos heading scan. -/
def vidHeadF (d : Doc) (h : Nat) : Option Nat :=
  if vidHeadingCond d h then closestSel d h hveidSel else none

/-- All hide targets of the forums branch, computed over document d, are
no-ops in state s. -/
def forumsDone (d : Doc) (s : St) : Prop :=
  (∀ el ∈ findElements d SELECTORS.forums, doneTgt s (forumsF1 d el)) ∧
  (∀ el ∈ findElements d SELECTORS.discussionSection, doneTgt s (selfF d el))

/-- All hide targets of the people-also-ask branch over d are no-ops in
s. -/
def paaDone (d : Doc) (s : St) : Prop :=
  (∀ el ∈ findElements d SELECTORS.peopleAlsoAsk, doneTgt s (paaF1 d el)) ∧
  (∀ h ∈ qsaMulti d headingSels23, doneTgt s (paaHeadF d h))

/-- All hide targets of the shopping branch over d are no-ops in s. -/
def shoppingDone (d : Doc) (s : St) : Prop :=
  ∀ el ∈ findElements d SELECTORS.shopping, doneTgt s (selfF d el)

/-- All hide targets of the videos branch over d are no-ops in s. -/
def videosDone (d : Doc) (s : St) : Prop :=
  (∀ el ∈ findElements d SELECTORS.videos, doneTgt s (vidF1 d el)) ∧
  (∀ h ∈ qsaMulti d headingSels23, doneTgt s (vidHeadF d h))

/-- All hide targets of the sponsored branch over d are no-ops in s. -/
def sponsoredDone (d : Doc) (s : St) : Prop :=
  ∀ el ∈ findElements d SELECTORS.sponsored, doneTgt s (selfF d el)

/-- The forums stage of a pass, guarded by its flag. -/
def stage2 (p : Prefs) (s : St) : St := if p.hideForums then cleanForums s else s

/-- The people-also-ask stage of a pass, guarded by its flag. -/
def stage3 (p : Prefs) (s : St) : St := if p.hidePeopleAlsoAsk then cleanPAA s else s

/-- The shopping stage of a pass, guarded by its flag. -/
def stage4 (p : Prefs) (s : St) : St := if p.hideShopping then cleanShopping s else s

/-- The videos stage of a pass, guarded by its flag. -/
def stage5 (p : Prefs) (s : St) : St := if p.hideVideos then cleanVideos s else s

/-- The sponsored stage of a pass, guarded by its flag. -/
def stage6 (p : Prefs) (s : St) : St := if p.hideSponsored then cleanSponsored s else s

/-- A full cleanSearch pass under a paid preference snapshot whose hideAI
flag is off: the five generic category stages in source order. -/
def passNoAI (p : Prefs) (s : St) : St :=
  stage6 p (stage5 p (stage4 p (stage3 p (stage2 p s))))

/-- Characterization of the shared upward walk: the result lies on the
given ancestor chain, every step climbed was through a tracking-attributed
non-boundary node, and the walk stopped at the top of the chain, at the
child of a results-region boundary, or below a non-attributed node (the
outermost attributed ancestor). -/
def WalkSpec (d : Doc) (c r : Nat) : Prop :=
  ∃ j, (c :: d.anc c).get? j = some r ∧
    (∀ i x, 1 ≤ i → i ≤ j → (c :: d.anc c).get? i = some x →
      trackAttr d x = true ∧ isBoundaryId d x = false) ∧
    ((c :: d.anc c).get? (j + 1) = none ∨
     ∃ y, (c :: d.anc c).get? (j + 1) = some y ∧
       (isBoundaryId d y = true ∨ trackAttr d y = false))

/-- Characterization of the bounded plain fallback walk from a heading:
either the first tracking-attributed node among the first
min 6 (depth) ancestors is returned, or none of them is attributed and
the walk ends exactly min 6 (depth) steps up. -/
def FallbackSpec (d : Doc) (h r : Nat) : Prop :=
  (∃ j, 1 ≤ j ∧ j ≤ min 6 (d.anc h).length ∧
     (h :: d.anc h).get? j = some r ∧ trackAttr d r = true ∧
     (∀ i x, 1 ≤ i → i < j → (h :: d.anc h).get? i = some x → trackAttr d x = false)) ∨
  ((∀ i x, 1 ≤ i → i ≤ min 6 (d.anc h).length → (h :: d.anc h).get? i = some x →
      trackAttr d x = false) ∧
   (h :: d.anc h).get? (min 6 (d.anc h).length) = some r)

/-! ## Concrete documents and states used as witnesses and
counterexamples -/

/-- Plain element data shorthand. -/
def mkElem (tag id : String) (cls : List String) (ats : List (String × String)) : ElemInfo :=
  { tagName := tag, idAttr := id, classes := cls, attrs := ats, shadow := none }

/-- A state over a document, untagged, fully visible. -/
def mkSt (d : Doc) (p : Prefs) : St :=
  { doc := d, prefs := p, gsc := fun _ => none, display := fun _ => "", nextId := 100 }

/-- The all-false preference set. -/
def prefsOff : Prefs :=
  { hideAI := false, hideForums := false, hidePeopleAlsoAsk := false,
    hideShopping := false, hideVideos := false, hideSponsored := false, isPaid := false }

/-- The empty document. -/
def docEmpty : Doc := { order := [], kind := fun _ => .absent, anc := fun _ => [] }

/-- Witness state for the unpaid gate: paid flag off, all category flags
on. -/
def stW1 : St :=
  mkSt docEmpty { hideAI := true, hideForums := true, hidePeopleAlsoAsk := true,
                  hideShopping := true, hideVideos := true, hideSponsored := true,
                  isPaid := false }

/-- Document with one sponsored unit (class ads-fr) under a plain root. -/
def docC2 : Doc :=
  { order := [1, 5],
    kind := fun n =>
      if n = 1 then .elem (mkElem "div" "" [] [])
      else if n = 5 then .elem (mkElem "div" "" ["ads-fr"] [])
      else .absent,
    anc := fun n => if n = 5 then [1] else [] }

/-- Counterexample state: the sponsored node is tagged user-shown, the
sponsored category is enabled and the user is paid. -/
def exC2 : St :=
  { doc := docC2,
    prefs := { prefsOff with hideSponsored := true, isPaid := true },
    gsc := fun n => if n = 5 then some "user-shown" else none,
    display := fun _ => "",
    nextId := 100 }

/-- Witness state for the amended claim: one user-shown node, AI category
enabled, all other categories off. -/
def stW2 : St :=
  { doc := { order := [7], kind := fun n => if n = 7 then .elem (mkElem "div" "" [] []) else .absent,
             anc := fun _ => [] },
    prefs := { prefsOff with hideAI := true, isPaid := true },
    gsc := fun n => if n = 7 then some "user-shown" else none,
    display := fun _ => "",
    nextId := 100 }

/-- Document with a node inside a protected header element. -/
def docC3 : Doc :=
  { order := [1, 2],
    kind := fun n =>
      if n = 1 then .elem (mkElem "header" "" [] [])
      else if n = 2 then .elem (mkElem "div" "" [] [])
      else .absent,
    anc := fun n => if n = 2 then [1] else [] }

/-- Witness state over the protected-header document. -/
def stW3 : St := mkSt docC3 { prefsOff with isPaid := true }

/-- Second witness state over the protected-header document. -/
def stW10 : St :=
  { doc := docC3, prefs := { prefsOff with isPaid := true },
    gsc := fun _ => none, display := fun _ => "", nextId := 50 }

/-- Document for the idempotence counterexample: two headings that match
the AI Overview text, the first containing a legacy-id AI candidate, so
that the reveal button inserted by the first pass changes the first
heading text and the second pass walks to the second heading. -/
def docC4 : Doc :=
  { order := [1, 10, 11, 12, 20, 21],
    kind := fun n =>
      if n = 1 then .elem (mkElem "div" "" [] [])
      else if n = 10 then .elem (mkElem "h2" "" [] [("data-hveid", "x")])
      else if n = 11 then .elem (mkElem "div" "arc-srp_1" [] [])
      else if n = 12 then .text "ai overview one"
      else if n = 20 then .elem (mkElem "h2" "" [] [("data-hveid", "y")])
      else if n = 21 then .text "ai overview two"
      else .absent,
    anc := fun n =>
      if n = 10 then [1] else if n = 11 then [10, 1] else if n = 12 then [10, 1]
      else if n = 20 then [1] else if n = 21 then [20, 1] else [] }

/-- Counterexample state for idempotence: paid, only hideAI enabled. -/
def exC4 : St := mkSt docC4 { prefsOff with hideAI := true, isPaid := true }

/-- Witness state for the amended idempotence claim (hideAI off): a paid
state with the shopping category on and a shopping unit present. -/
def stW4 : St :=
  mkSt { order := [1, 6],
         kind := fun n =>
           if n = 1 then .elem (mkElem "div" "" [] [])
           else if n = 6 then .elem (mkElem "div" "" ["cu-container"] [])
           else .absent,
         anc := fun n => if n = 6 then [1] else [] }
       { prefsOff with hideShopping := true, isPaid := true }

/-- Witness store for the preference-change handler: paid, all category
flags off (hideSponsored just flipped to false). -/
def storeW5 : Prefs := { prefsOff with isPaid := true }

/-- Witness state for the preference-change handler: one tagged hidden
node. -/
def stW5 : St :=
  { doc := { order := [3], kind := fun n => if n = 3 then .elem (mkElem "div" "" ["ads-fr"] []) else .absent,
             anc := fun _ => [] },
    prefs := { prefsOff with hideSponsored := true, isPaid := true },
    gsc := fun n => if n = 3 then some "true" else none,
    display := fun n => if n = 3 then "none" else "",
    nextId := 100 }

/-- Witness state for the navigation reset: one tagged hidden node. -/
def stW6 : St :=
  { doc := { order := [4], kind := fun n => if n = 4 then .elem (mkElem "div" "" [] []) else .absent,
             anc := fun _ => [] },
    prefs := prefsOff,
    gsc := fun n => if n = 4 then some "true" else none,
    display := fun n => if n = 4 then "none" else "",
    nextId := 100 }

/-- Document whose AI container is found by the attribute probe. -/
def docC8 : Doc :=
  { order := [1, 3],
    kind := fun n =>
      if n = 1 then .elem (mkElem "div" "" [] [])
      else if n = 3 then .elem (mkElem "div" "" [] [("data-async-type", "du_kg")])
      else .absent,
    anc := fun n => if n = 3 then [1] else [] }

/-- Document exercising the heading-text walk: an AI Overview heading
carrying data-ved, inside a data-hveid block, inside the rso boundary. -/
def docC9 : Doc :=
  { order := [1, 3, 4, 10, 11],
    kind := fun n =>
      if n = 1 then .elem (mkElem "div" "" [] [])
      else if n = 3 then .elem (mkElem "div" "rso" [] [])
      else if n = 4 then .elem (mkElem "div" "" [] [("data-hveid", "q")])
      else if n = 10 then .elem (mkElem "h2" "" [] [("data-ved", "v")])
      else if n = 11 then .text "AI Overview"
      else .absent,
    anc := fun n =>
      if n = 3 then [1] else if n = 4 then [3, 1]
      else if n = 10 then [4, 3, 1] else if n = 11 then [10, 4, 3, 1] else [] }

/-! ## Helper lemmas about hideElement -/

theorem hideElement_none (s : St) (t : HideType) : hideElement s none t = s := rfl

theorem hideElement_generic_eq (s : St) (el : Nat) :
    hideElement s (some el) .generic =
      if s.gsc el = some "true" then s
      else if isSafeToHide s.doc el = false then s
      else { s with gsc := fun m => if m = el then some "true" else s.gsc m,
                    display := fun m => if m = el then "none" else s.display m } := rfl

theorem hideElement_ai_eq (s : St) (el : Nat) :
    hideElement s (some el) .ai =
      if s.gsc el = some "true" then s
      else if isSafeToHide s.doc el = false then s
      else { doc := if s.doc.anc el = [] then s.doc else insertButton s.doc s.nextId el,
             prefs := s.prefs,
             gsc := fun m => if m = el then some "true" else s.gsc m,
             display := fun m => if m = el then "none" else s.display m,
             nextId := s.nextId + 2 } := by
  simp only [hideElement]
  split
  · rfl
  · split
    · rfl
    · split <;> rfl

theorem hideElement_tagged (s : St) (el : Nat) (t : HideType)
    (h : s.gsc el = some "true") : hideElement s (some el) t = s := by
  cases t <;> simp [hideElement_generic_eq, hideElement_ai_eq, h]

theorem hideElement_not_safe (s : St) (el : Nat) (t : HideType)
    (h : isSafeToHide s.doc el = false) : hideElement s (some el) t = s := by
  by_cases hg : s.gsc el = some "true"
  · exact hideElement_tagged s el t hg
  · cases t <;> simp [hideElement_generic_eq, hideElement_ai_eq, hg, h]

theorem hideElement_prefs (s : St) (e? : Option Nat) (t : HideType) :
    (hideElement s e? t).prefs = s.prefs := by
  cases e? with
  | none => rfl
  | some el =>
      cases t with
      | ai => rw [hideElement_ai_eq]; split; · rfl
              split <;> rfl
      | generic => rw [hideElement_generic_eq]; split; · rfl
                   split <;> rfl

theorem hideElement_doc_generic (s : St) (e? : Option Nat) :
    (hideElement s e? .generic).doc = s.doc := by
  cases e? with
  | none => rfl
  | some el => rw [hideElement_generic_eq]; split <;> [rfl; skip]; split <;> rfl

theorem hideElement_nextId_generic (s : St) (e? : Option Nat) :
    (hideElement s e? .generic).nextId = s.nextId := by
  cases e? with
  | none => rfl
  | some el => rw [hideElement_generic_eq]; split <;> [rfl; skip]; split <;> rfl

theorem hideElement_gsc_other (s : St) (el m : Nat) (t : HideType) (hm : m ≠ el) :
    (hideElement s (some el) t).gsc m = s.gsc m := by
  cases t with
  | ai => rw [hideElement_ai_eq]; split; · rfl
          split; · rfl
          simp [hm]
  | generic => rw [hideElement_generic_eq]; split; · rfl
               split; · rfl
               simp [hm]

theorem hideElement_display_other (s : St) (el m : Nat) (t : HideType) (hm : m ≠ el) :
    (hideElement s (some el) t).display m = s.display m := by
  cases t with
  | ai => rw [hideElement_ai_eq]; split; · rfl
          split; · rfl
          simp [hm]
  | generic => rw [hideElement_generic_eq]; split; · rfl
               split; · rfl
               simp [hm]

theorem hideElement_noop_of_done (s : St) (e? : Option Nat) (t : HideType)
    (h : doneTgt s e?) : hideElement s e? t = s := by
  cases e? with
  | none => rfl
  | some el =>
      cases h with
      | inl hg => exact hideElement_tagged s el t hg
      | inr hs => exact hideElement_not_safe s el t hs

theorem doneTgt_hide_self (s : St) (el : Nat) :
    doneTgt (hideElement s (some el) .generic) (some el) := by
  by_cases hg : s.gsc el = some "true"
  · rw [hideElement_tagged s el .generic hg]; exact Or.inl hg
  · by_cases hs : isSafeToHide s.doc el = false
    · rw [hideElement_not_safe s el .generic hs]; exact Or.inr hs
    · rw [hideElement_generic_eq]
      simp only [hg, hs, if_false]
      exact Or.inl (by simp)

theorem doneTgt_mono_generic (s : St) (e? e' : Option Nat)
    (h : doneTgt s e?) : doneTgt (hideElement s e' .generic) e? := by
  cases e? with
  | none => trivial
  | some x =>
      cases h with
      | inl hg =>
          cases e' with
          | none => exact Or.inl hg
          | some el =>
              by_cases hx : x = el
              · subst hx
                rw [hideElement_tagged s x .generic hg]; exact Or.inl hg
              · exact Or.inl ((hideElement_gsc_other s el x .generic hx).trans hg)
      | inr hs =>
          exact Or.inr ((congrArg (fun d => isSafeToHide d x) (hideElement_doc_generic s e')).trans hs)

/-! ## Helper lemmas about the generic hide folds -/

theorem genericRun_nil {α : Type} (F : Doc → α → Option Nat) (st : St) :
    genericRun F [] st = st := rfl

theorem genericRun_cons {α : Type} (F : Doc → α → Option Nat) (x : α) (l : List α) (st : St) :
    genericRun F (x :: l) st = genericRun F l (hideElement st (F st.doc x) .generic) := rfl

theorem genericRun_doc {α : Type} (F : Doc → α → Option Nat) (l : List α) :
    ∀ st : St, (genericRun F l st).doc = st.doc := by
  induction l with
  | nil => intro st; rfl
  | cons x xs ih =>
      intro st
      rw [genericRun_cons, ih, hideElement_doc_generic]

theorem genericRun_prefs {α : Type} (F : Doc → α → Option Nat) (l : List α) :
    ∀ st : St, (genericRun F l st).prefs = st.prefs := by
  induction l with
  | nil => intro st; rfl
  | cons x xs ih =>
      intro st
      rw [genericRun_cons, ih, hideElement_prefs]

theorem genericRun_done_mono {α : Type} (F : Doc → α → Option Nat) (l : List α) :
    ∀ (st : St) (e? : Option Nat), doneTgt st e? → doneTgt (genericRun F l st) e? := by
  induction l with
  | nil => intro st e? h; exact h
  | cons x xs ih =>
      intro st e? h
      rw [genericRun_cons]
      exact ih _ _ (doneTgt_mono_generic st e? _ h)

theorem genericRun_noop {α : Type} (F : Doc → α → Option Nat) (l : List α) (st : St)
    (h : ∀ x ∈ l, doneTgt st (F st.doc x)) : genericRun F l st = st := by
  induction l with
  | nil => rfl
  | cons x xs ih =>
      rw [genericRun_cons, hideElement_noop_of_done st _ .generic (h x (by simp))]
      exact ih (fun y hy => h y (by simp [hy]))

theorem genericRun_est {α : Type} (F : Doc → α → Option Nat) (l : List α) :
    ∀ (st : St) (x : α), x ∈ l → doneTgt (genericRun F l st) (F st.doc x) := by
  induction l with
  | nil => intro st x hx; cases hx
  | cons y ys ih =>
      intro st x hx
      rw [genericRun_cons]
      rcases List.mem_cons.mp hx with h | h
      · subst h
        have h1 : doneTgt (hideElement st (F st.doc x) .generic) (F st.doc x) := by
          cases he : F st.doc x with
          | none => trivial
          | some el => exact doneTgt_hide_self st el
        exact genericRun_done_mono F ys _ _ h1
      · have hd : (hideElement st (F st.doc y) .generic).doc = st.doc :=
          hideElement_doc_generic st _
        have := ih (hideElement st (F st.doc y) .generic) x h
        rwa [hd] at this

theorem foldl_ext {α β : Type} (f g : β → α → β) (h : ∀ s x, f s x = g s x) :
    ∀ (l : List α) (s : β), l.foldl f s = l.foldl g s := by
  intro l
  induction l with
  | nil => intro s; rfl
  | cons x xs ih => intro s; rw [List.foldl_cons, List.foldl_cons, h, ih]

/-! ## The generic branches as genericRun instances -/

theorem cleanShopping_eq (st : St) :
    cleanShopping st = genericRun selfF (findElements st.doc SELECTORS.shopping) st := rfl

theorem cleanSponsored_eq (st : St) :
    cleanSponsored st = genericRun selfF (findElements st.doc SELECTORS.sponsored) st := rfl

theorem cleanForums_eq (st : St) :
    cleanForums st =
      genericRun selfF
        (findElements (genericRun forumsF1 (findElements st.doc SELECTORS.forums) st).doc
          SELECTORS.discussionSection)
        (genericRun forumsF1 (findElements st.doc SELECTORS.forums) st) := rfl

theorem cleanPAA_eq (st : St) :
    cleanPAA st =
      genericRun paaHeadF
        (qsaMulti (genericRun paaF1 (findElements st.doc SELECTORS.peopleAlsoAsk) st).doc
          headingSels23)
        (genericRun paaF1 (findElements st.doc SELECTORS.peopleAlsoAsk) st) := by
  have h2 : ∀ (s : St) (h : Nat),
      (let t := jsLower (jsTrim (textContent s.doc h))
       if t = "people also ask" || jsStartsWith t "people also ask" then
         hideElement s (closestSel s.doc h hveidSel) .generic
       else s) = hideElement s (paaHeadF s.doc h) .generic := by
    intro s h
    show (if paaHeadingCond s.doc h then
            hideElement s (closestSel s.doc h hveidSel) .generic
          else s) = _
    by_cases hc : paaHeadingCond s.doc h
    · simp [paaHeadF, hc]
    · simp [paaHeadF, hc, hideElement_none]
  exact foldl_ext _ _ h2 _ _

theorem cleanVideos_eq (st : St) :
    cleanVideos st =
      genericRun vidHeadF
        (qsaMulti (genericRun vidF1 (findElements st.doc SELECTORS.videos) st).doc
          headingSels23)
        (genericRun vidF1 (findElements st.doc SELECTORS.videos) st) := by
  have h1 : ∀ (s : St) (el : Nat),
      (match closestSel s.doc el carouselSel with
       | some car =>
           hideElement s
             (match closestSel s.doc car hveidSel with
              | some c => some c
              | none => (s.doc.anc car).head?) .generic
       | none =>
           hideElement s
             (some (match closestSel s.doc el hveidSel with | some c => c | none => el))
             .generic) = hideElement s (vidF1 s.doc el) .generic := by
    intro s el
    unfold vidF1
    cases closestSel s.doc el carouselSel <;> rfl
  have h2 : ∀ (s : St) (h : Nat),
      (let t := jsLower (textContent s.doc h)
       if jsIncludes t "video" || jsIncludes t "watch" then
         hideElement s (closestSel s.doc h hveidSel) .generic
       else s) = hideElement s (vidHeadF s.doc h) .generic := by
    intro s h
    show (if vidHeadingCond s.doc h then
            hideElement s (closestSel s.doc h hveidSel) .generic
          else s) = _
    by_cases hc : vidHeadingCond s.doc h
    · simp [vidHeadF, hc]
    · simp [vidHeadF, hc, hideElement_none]
  have e1 : cleanVideos st =
      (qsaMulti (genericRun vidF1 (findElements st.doc SELECTORS.videos) st).doc
        headingSels23).foldl
        (fun s h =>
          let t := jsLower (textContent s.doc h)
          if jsIncludes t "video" || jsIncludes t "watch" then
            hideElement s (closestSel s.doc h hveidSel) .generic
          else s)
        (genericRun vidF1 (findElements st.doc SELECTORS.videos) st) := by
    unfold cleanVideos
    rw [foldl_ext _ _ h1 (findElements st.doc SELECTORS.videos) st]
    rfl
  rw [e1]
  exact foldl_ext _ _ h2 _ _

/-! ## Branch-level facts -/

theorem cleanForums_doc (st : St) : (cleanForums st).doc = st.doc := by
  rw [cleanForums_eq, genericRun_doc, genericRun_doc]

theorem cleanForums_prefs (st : St) : (cleanForums st).prefs = st.prefs := by
  rw [cleanForums_eq, genericRun_prefs, genericRun_prefs]

theorem cleanForums_done_mono (st : St) (e? : Option Nat) (h : doneTgt st e?) :
    doneTgt (cleanForums st) e? := by
  rw [cleanForums_eq]
  exact genericRun_done_mono _ _ _ _ (genericRun_done_mono _ _ _ _ h)

theorem cleanForums_noop (st : St) (h : forumsDone st.doc st) : cleanForums st = st := by
  obtain ⟨h1, h2⟩ := h
  rw [cleanForums_eq, genericRun_noop _ _ _ h1]
  exact genericRun_noop _ _ _ h2

theorem cleanForums_est (st : St) : forumsDone st.doc (cleanForums st) := by
  have hd := genericRun_doc forumsF1 (findElements st.doc SELECTORS.forums) st
  constructor
  · intro el hel
    rw [cleanForums_eq]
    exact genericRun_done_mono _ _ _ _ (genericRun_est _ _ _ el hel)
  · intro el hel
    rw [cleanForums_eq]
    have hel2 : el ∈ findElements
        (genericRun forumsF1 (findElements st.doc SELECTORS.forums) st).doc
        SELECTORS.discussionSection := by rw [hd]; exact hel
    have := genericRun_est selfF
      (findElements (genericRun forumsF1 (findElements st.doc SELECTORS.forums) st).doc
        SELECTORS.discussionSection)
      (genericRun forumsF1 (findElements st.doc SELECTORS.forums) st) el hel2
    exact this

theorem cleanPAA_doc (st : St) : (cleanPAA st).doc = st.doc := by
  rw [cleanPAA_eq, genericRun_doc, genericRun_doc]

theorem cleanPAA_prefs (st : St) : (cleanPAA st).prefs = st.prefs := by
  rw [cleanPAA_eq, genericRun_prefs, genericRun_prefs]

theorem cleanPAA_done_mono (st : St) (e? : Option Nat) (h : doneTgt st e?) :
    doneTgt (cleanPAA st) e? := by
  rw [cleanPAA_eq]
  exact genericRun_done_mono _ _ _ _ (genericRun_done_mono _ _ _ _ h)

theorem cleanPAA_noop (st : St) (h : paaDone st.doc st) : cleanPAA st = st := by
  obtain ⟨h1, h2⟩ := h
  rw [cleanPAA_eq, genericRun_noop _ _ _ h1]
  exact genericRun_noop _ _ _ h2

theorem cleanPAA_est (st : St) : paaDone st.doc (cleanPAA st) := by
  have hd := genericRun_doc paaF1 (findElements st.doc SELECTORS.peopleAlsoAsk) st
  constructor
  · intro el hel
    rw [cleanPAA_eq]
    exact genericRun_done_mono _ _ _ _ (genericRun_est _ _ _ el hel)
  · intro h hh
    rw [cleanPAA_eq]
    have hh2 : h ∈ qsaMulti
        (genericRun paaF1 (findElements st.doc SELECTORS.peopleAlsoAsk) st).doc
        headingSels23 := by rw [hd]; exact hh
    have h3 := genericRun_est paaHeadF
      (qsaMulti (genericRun paaF1 (findElements st.doc SELECTORS.peopleAlsoAsk) st).doc
        headingSels23)
      (genericRun paaF1 (findElements st.doc SELECTORS.peopleAlsoAsk) st) h hh2
    have harg : paaHeadF
        (genericRun paaF1 (findElements st.doc SELECTORS.peopleAlsoAsk) st).doc h
        = paaHeadF st.doc h := by rw [hd]
    rw [← harg]
    exact h3

theorem cleanShopping_doc (st : St) : (cleanShopping st).doc = st.doc := by
  rw [cleanShopping_eq, genericRun_doc]

theorem cleanShopping_prefs (st : St) : (cleanShopping st).prefs = st.prefs := by
  rw [cleanShopping_eq, genericRun_prefs]

theorem cleanShopping_done_mono (st : St) (e? : Option Nat) (h : doneTgt st e?) :
    doneTgt (cleanShopping st) e? := by
  rw [cleanShopping_eq]
  exact genericRun_done_mono _ _ _ _ h

theorem cleanShopping_noop (st : St) (h : shoppingDone st.doc st) : cleanShopping st = st := by
  rw [cleanShopping_eq]
  exact genericRun_noop _ _ _ h

theorem cleanShopping_est (st : St) : shoppingDone st.doc (cleanShopping st) := by
  intro el hel
  rw [cleanShopping_eq]
  exact genericRun_est _ _ _ el hel

theorem cleanVideos_doc (st : St) : (cleanVideos st).doc = st.doc := by
  rw [cleanVideos_eq, genericRun_doc, genericRun_doc]

theorem cleanVideos_prefs (st : St) : (cleanVideos st).prefs = st.prefs := by
  rw [cleanVideos_eq, genericRun_prefs, genericRun_prefs]

theorem cleanVideos_done_mono (st : St) (e? : Option Nat) (h : doneTgt st e?) :
    doneTgt (cleanVideos st) e? := by
  rw [cleanVideos_eq]
  exact genericRun_done_mono _ _ _ _ (genericRun_done_mono _ _ _ _ h)

theorem cleanVideos_noop (st : St) (h : videosDone st.doc st) : cleanVideos st = st := by
  obtain ⟨h1, h2⟩ := h
  rw [cleanVideos_eq, genericRun_noop _ _ _ h1]
  exact genericRun_noop _ _ _ h2

theorem cleanVideos_est (st : St) : videosDone st.doc (cleanVideos st) := by
  have hd := genericRun_doc vidF1 (findElements st.doc SELECTORS.videos) st
  constructor
  · intro el hel
    rw [cleanVideos_eq]
    exact genericRun_done_mono _ _ _ _ (genericRun_est _ _ _ el hel)
  · intro h hh
    rw [cleanVideos_eq]
    have hh2 : h ∈ qsaMulti
        (genericRun vidF1 (findElements st.doc SELECTORS.videos) st).doc
        headingSels23 := by rw [hd]; exact hh
    have h3 := genericRun_est vidHeadF
      (qsaMulti (genericRun vidF1 (findElements st.doc SELECTORS.videos) st).doc
        headingSels23)
      (genericRun vidF1 (findElements st.doc SELECTORS.videos) st) h hh2
    have harg : vidHeadF
        (genericRun vidF1 (findElements st.doc SELECTORS.videos) st).doc h
        = vidHeadF st.doc h := by rw [hd]
    rw [← harg]
    exact h3

theorem cleanSponsored_doc (st : St) : (cleanSponsored st).doc = st.doc := by
  rw [cleanSponsored_eq, genericRun_doc]

theorem cleanSponsored_prefs (st : St) : (cleanSponsored st).prefs = st.prefs := by
  rw [cleanSponsored_eq, genericRun_prefs]

theorem cleanSponsored_done_mono (st : St) (e? : Option Nat) (h : doneTgt st e?) :
    doneTgt (cleanSponsored st) e? := by
  rw [cleanSponsored_eq]
  exact genericRun_done_mono _ _ _ _ h

theorem cleanSponsored_noop (st : St) (h : sponsoredDone st.doc st) : cleanSponsored st = st := by
  rw [cleanSponsored_eq]
  exact genericRun_noop _ _ _ h

theorem cleanSponsored_est (st : St) : sponsoredDone st.doc (cleanSponsored st) := by
  intro el hel
  rw [cleanSponsored_eq]
  exact genericRun_est _ _ _ el hel

/-! ## Facts about the AI branch -/

theorem aiFold_prefs (l : List Nat) :
    ∀ st : St, (l.foldl (fun s el => hideElement s (some el) .ai) st).prefs = st.prefs := by
  induction l with
  | nil => intro st; rfl
  | cons x xs ih =>
      intro st
      rw [List.foldl_cons, ih, hideElement_prefs]

theorem cleanAI_prefs (st : St) : (cleanAI st).prefs = st.prefs :=
  aiFold_prefs _ st

theorem aiFold_keep (n : Nat) (l : List Nat) (hn : n ∉ l) :
    ∀ st : St,
      (l.foldl (fun s el => hideElement s (some el) .ai) st).gsc n = st.gsc n ∧
      (l.foldl (fun s el => hideElement s (some el) .ai) st).display n = st.display n := by
  induction l with
  | nil => intro st; exact ⟨rfl, rfl⟩
  | cons x xs ih =>
      intro st
      have hnx : n ≠ x := fun hcon => hn (by simp [hcon])
      have hxs : n ∉ xs := fun hcon => hn (by simp [hcon])
      rw [List.foldl_cons]
      refine ⟨((ih hxs _).1).trans ?_, ((ih hxs _).2).trans ?_⟩
      · exact hideElement_gsc_other st x n .ai hnx
      · exact hideElement_display_other st x n .ai hnx

theorem cleanAI_userShown (st : St) (n : Nat) (h : st.gsc n = some "user-shown") :
    (cleanAI st).gsc n = st.gsc n ∧ (cleanAI st).display n = st.display n := by
  unfold cleanAI
  apply aiFold_keep
  intro hmem
  have := (List.mem_filter.mp hmem).2
  simp [h] at this

/-! ## C1 -/

/-- C1: if the cached paid-status flag is false, cleanSearch performs no
hide operation at all: the state (document, tags, display) is returned
unchanged, regardless of the six category flags. -/
theorem C1_unpaid_no_hide (st : St) (h : st.prefs.isPaid = false) : cleanSearch st = st := by
  simp [cleanSearch, h]

/-- Witness for C1: a concrete unpaid state with every category flag
enabled is left untouched. -/
theorem C1_unpaid_no_hide_witness : stW1.prefs.isPaid = false ∧ cleanSearch stW1 = stW1 :=
  ⟨rfl, C1_unpaid_no_hide stW1 rfl⟩

/-! ## C3 and C10 -/

theorem isSafeToHide_eq_false_of (d : Doc) (el : Nat) (he : isElemN d el = true)
    (hm : ∃ sel ∈ forbiddenSelectors, ∃ a ∈ el :: d.anc el, matchesSel d a sel = true) :
    isSafeToHide d el = false := by
  obtain ⟨sel, hsel, a, ha, hma⟩ := hm
  cases hq : isSafeToHide d el with
  | false => rfl
  | true =>
      exfalso
      have hall := List.all_eq_true.mp hq sel hsel
      have hc : (closestSel d el sel).isSome = true := by
        rw [closestSel, List.find?_isSome]
        exact ⟨a, ha, hma⟩
      rw [he, hc] at hall
      simp at hall

/-- C3: for a node that matches, or has an ancestor matching, one of the
fixed protected-region matchers, hideElement is a no-op for every
category: its display is unchanged and no tag is written. -/
theorem C3_protected_no_hide (s : St) (el : Nat) (t : HideType)
    (he : isElemN s.doc el = true)
    (hm : ∃ sel ∈ forbiddenSelectors, ∃ a ∈ el :: s.doc.anc el, matchesSel s.doc a sel = true) :
    (hideElement s (some el) t).display el = s.display el ∧
    (hideElement s (some el) t).gsc el = s.gsc el := by
  rw [hideElement_not_safe s el t (isSafeToHide_eq_false_of s.doc el he hm)]
  exact ⟨rfl, rfl⟩

/-- Witness for C3: a node under a header element keeps its display and
tag through hideElement. -/
theorem C3_protected_no_hide_witness :
    (hideElement stW3 (some 2) .generic).display 2 = stW3.display 2 ∧
    (hideElement stW3 (some 2) .generic).gsc 2 = stW3.gsc 2 :=
  C3_protected_no_hide stW3 2 .generic (by decide) (by decide)

/-- C10: a safety-guard denial is atomic: hideElement returns the state
completely unchanged, so the denied node keeps its previous tag value and
display and stays eligible for future passes. -/
theorem C10_guard_denial_atomic (s : St) (el : Nat) (t : HideType)
    (h : isSafeToHide s.doc el = false) : hideElement s (some el) t = s :=
  hideElement_not_safe s el t h

/-- Witness for C10: the guard denies a node under a header element and
the whole state is returned unchanged, for the ai strategy. -/
theorem C10_guard_denial_atomic_witness :
    isSafeToHide stW10.doc 2 = false ∧ hideElement stW10 (some 2) .ai = stW10 :=
  ⟨by decide, C10_guard_denial_atomic stW10 2 .ai (by decide)⟩

/-! ## C2 -/

/-- C2 counterexample: a node tagged user-shown that matches the sponsored
catalog is re-hidden by the sponsored pass of cleanSearch, which
overwrites its tag with true and suppresses its display. -/
theorem C2_counterexample :
    exC2.gsc 5 = some "user-shown" ∧
    (cleanSearch exC2).gsc 5 = some "true" ∧
    (cleanSearch exC2).display 5 = "none" := by
  refine ⟨rfl, ?_, ?_⟩ <;> decide

/-- C2 (amended): a node tagged user-shown is never re-hidden or retagged
by the AI-overview pass of cleanSearch (the only branches that run when
the other five category flags are off) or by the periodic AI recheck;
passes of other enabled categories, however, can re-hide such a node when
it matches their matchers. -/
theorem C2_amended_user_shown (st : St) (n : Nat) :
    (st.gsc n = some "user-shown" →
      st.prefs.hideForums = false → st.prefs.hidePeopleAlsoAsk = false →
      st.prefs.hideShopping = false → st.prefs.hideVideos = false →
      st.prefs.hideSponsored = false →
      (cleanSearch st).gsc n = some "user-shown" ∧ (cleanSearch st).display n = st.display n)
    ∧ (st.gsc n = some "user-shown" →
      (aiRecheck st).gsc n = some "user-shown" ∧ (aiRecheck st).display n = st.display n) := by
  constructor
  · intro hg hf hp hsh hv hsp
    by_cases hpaid : st.prefs.isPaid
    · have hcs : cleanSearch st = (if st.prefs.hideAI then cleanAI st else st) := by
        simp [cleanSearch, hpaid, hf, hp, hsh, hv, hsp]
      rw [hcs]
      by_cases hai : st.prefs.hideAI
      · simp only [hai, if_true]
        have h := cleanAI_userShown st n hg
        exact ⟨h.1.trans hg, h.2⟩
      · simp only [hai, if_false]
        exact ⟨hg, rfl⟩
    · have hp0 : st.prefs.isPaid = false := by
        cases hq : st.prefs.isPaid
        · rfl
        · exact absurd hq hpaid
      have hid : cleanSearch st = st := by simp [cleanSearch, hp0]
      rw [hid]
      exact ⟨hg, rfl⟩
  · intro hg
    by_cases hflag : (st.prefs.isPaid && st.prefs.hideAI) = true
    · rw [aiRecheck, if_pos hflag]
      cases hfind : findAIOverviewContainer st.doc with
      | none => exact ⟨hg, rfl⟩
      | some c =>
          dsimp only
          by_cases hcn : c = n
          · subst hcn
            rw [if_neg (by simp [hg])]
            exact ⟨hg, rfl⟩
          · have hnc : n ≠ c := fun hcon => hcn hcon.symm
            split
            · exact ⟨(hideElement_gsc_other st c n .ai hnc).trans hg,
                     hideElement_display_other st c n .ai hnc⟩
            · exact ⟨hg, rfl⟩
    · rw [aiRecheck, if_neg hflag]
      exact ⟨hg, rfl⟩

/-- Witness for the amended C2: a concrete user-shown node survives a full
cleanSearch (AI on, paid) and the recheck unchanged. -/
theorem C2_amended_user_shown_witness :
    ((cleanSearch stW2).gsc 7 = some "user-shown" ∧ (cleanSearch stW2).display 7 = stW2.display 7)
    ∧ ((aiRecheck stW2).gsc 7 = some "user-shown" ∧ (aiRecheck stW2).display 7 = stW2.display 7) :=
  ⟨(C2_amended_user_shown stW2 7).1 rfl rfl rfl rfl rfl rfl,
   (C2_amended_user_shown stW2 7).2 rfl⟩

/-! ## Facts about the resets and cleanSearch as a whole -/

theorem resetFold_fields (hs : List Nat) :
    ∀ (s : St) (n : Nat),
      ((hs.foldl resetNodeUpd s).gsc n = if n ∈ hs then some "false" else s.gsc n)
      ∧ ((hs.foldl resetNodeUpd s).display n = if n ∈ hs then "" else s.display n)
      ∧ (hs.foldl resetNodeUpd s).doc = s.doc
      ∧ (hs.foldl resetNodeUpd s).prefs = s.prefs := by
  induction hs with
  | nil => intro s n; exact ⟨by simp, by simp, rfl, rfl⟩
  | cons x xs ih =>
      intro s n
      rw [List.foldl_cons]
      obtain ⟨h1, h2, h3, h4⟩ := ih (resetNodeUpd s x) n
      refine ⟨?_, ?_, h3, h4⟩
      · rw [h1]
        by_cases hxs : n ∈ xs
        · simp [hxs]
        · by_cases hnx : n = x
          · simp [hxs, hnx, resetNodeUpd]
          · simp [hxs, hnx, resetNodeUpd]
      · rw [h2]
        by_cases hxs : n ∈ xs
        · simp [hxs]
        · by_cases hnx : n = x
          · simp [hxs, hnx, resetNodeUpd]
          · simp [hxs, hnx, resetNodeUpd]

theorem resetHiddenState_doc (s : St) :
    (resetHiddenState s).doc = removeBtns s.doc :=
  (resetFold_fields _ _ 0).2.2.1

theorem resetHiddenState_prefs (s : St) :
    (resetHiddenState s).prefs = s.prefs :=
  (resetFold_fields _ _ 0).2.2.2

theorem resetHiddenState_gsc (s : St) (n : Nat) :
    (resetHiddenState s).gsc n =
      if n ∈ resetList (removeBtns s.doc) s.gsc then some "false" else s.gsc n :=
  (resetFold_fields _ _ n).1

theorem resetHiddenState_display (s : St) (n : Nat) :
    (resetHiddenState s).display n =
      if n ∈ resetList (removeBtns s.doc) s.gsc then "" else s.display n :=
  (resetFold_fields _ _ n).2.1

theorem cleanSearch_prefs (st : St) : (cleanSearch st).prefs = st.prefs := by
  by_cases hpaid : st.prefs.isPaid
  · simp only [cleanSearch, hpaid, Bool.not_true, Bool.false_eq_true, if_false]
    repeat' first
      | rw [cleanSponsored_prefs]
      | rw [cleanVideos_prefs]
      | rw [cleanShopping_prefs]
      | rw [cleanPAA_prefs]
      | rw [cleanAI_prefs]
      | rw [cleanForums_prefs]
      | split
      | rfl
  · have h0 : st.prefs.isPaid = false := by
      cases hq : st.prefs.isPaid
      · rfl
      · exact absurd hq hpaid
    simp [cleanSearch, h0]

theorem cleanSearch_allOff (s : St)
    (h1 : s.prefs.hideAI = false) (h2 : s.prefs.hideForums = false)
    (h3 : s.prefs.hidePeopleAlsoAsk = false) (h4 : s.prefs.hideShopping = false)
    (h5 : s.prefs.hideVideos = false) (h6 : s.prefs.hideSponsored = false) :
    cleanSearch s = s := by
  by_cases hpaid : s.prefs.isPaid
  · simp [cleanSearch, hpaid, h1, h2, h3, h4, h5, h6]
  · have h0 : s.prefs.isPaid = false := by
      cases hq : s.prefs.isPaid
      · rfl
      · exact absurd hq hpaid
    simp [cleanSearch, h0]

theorem removeBtns_kind (d : Doc) : (removeBtns d).kind = d.kind := rfl

theorem mem_removeBtns_not_btn (d : Doc) (n : Nat) (h : n ∈ (removeBtns d).order) :
    isBtnNode d n = false := by
  have h2 := (List.mem_filter.mp h).2
  cases hq : isBtnNode d n
  · rfl
  · rw [hq] at h2; simp at h2

/-! ## C5 -/

/-- C5: on a preference-change notification the handler replaces the
cached preference set wholesale from the store, always resets all hidden
state (tags back to false, displays restored, reveal buttons removed), and
re-runs the passes only when the refreshed cache is paid; with the
category flags all off (hideSponsored just flipped to false) every
previously tagged attached element ends visible with its tag cleared. -/
theorem C5_pref_change_reset_reclean (store : Prefs) (st : St) :
    ((onPrefsChanged store st).prefs = store)
    ∧ (store.isPaid = false →
        onPrefsChanged store st = resetHiddenState { st with prefs := store })
    ∧ (store.isPaid = false →
        ∀ n ∈ (onPrefsChanged store st).doc.order,
          isBtnNode (onPrefsChanged store st).doc n = false)
    ∧ (store.isPaid = true → store.hideAI = false → store.hideForums = false →
       store.hidePeopleAlsoAsk = false → store.hideShopping = false →
       store.hideVideos = false → store.hideSponsored = false →
       ∀ n, (st.gsc n).isSome = true → n ∈ (removeBtns st.doc).order →
         isElemN (removeBtns st.doc) n = true →
         (onPrefsChanged store st).gsc n = some "false" ∧
         (onPrefsChanged store st).display n = "") := by
  refine ⟨?_, ?_, ?_, ?_⟩
  · unfold onPrefsChanged
    split
    · rw [cleanSearch_prefs, cleanSearch_prefs, cleanSearch_prefs, resetHiddenState_prefs]
    · rw [resetHiddenState_prefs]
  · intro h
    simp [onPrefsChanged, h]
  · intro h n
    have he : onPrefsChanged store st = resetHiddenState { st with prefs := store } := by
      simp [onPrefsChanged, h]
    rw [he, resetHiddenState_doc]
    exact fun hmem => mem_removeBtns_not_btn ({ st with prefs := store } : St).doc n hmem
  · intro hpaid hai hf hp hsh hv hsp n hg hord hel
    have hprefs : (resetHiddenState { st with prefs := store }).prefs = store :=
      resetHiddenState_prefs _
    have hclean : ∀ s : St, s.prefs = store → cleanSearch s = s := by
      intro s hs
      exact cleanSearch_allOff s (by rw [hs]; exact hai) (by rw [hs]; exact hf)
        (by rw [hs]; exact hp) (by rw [hs]; exact hsh) (by rw [hs]; exact hv)
        (by rw [hs]; exact hsp)
    have hres : onPrefsChanged store st = resetHiddenState { st with prefs := store } := by
      unfold onPrefsChanged
      rw [if_pos hpaid]
      rw [hclean _ hprefs, hclean _ hprefs, hclean _ hprefs]
    rw [hres]
    have hmem : n ∈ resetList (removeBtns ({ st with prefs := store } : St).doc)
        ({ st with prefs := store } : St).gsc := by
      apply List.mem_filter.mpr
      exact ⟨hord, by simp [hel, hg]⟩
    rw [resetHiddenState_gsc, resetHiddenState_display, if_pos hmem, if_pos hmem]
    exact ⟨rfl, rfl⟩

/-- Witness for C5: after the handler runs with a paid store whose
category flags are all off, a concrete previously hidden node is visible
and untagged. -/
theorem C5_pref_change_witness :
    (onPrefsChanged storeW5 stW5).gsc 3 = some "false" ∧
    (onPrefsChanged storeW5 stW5).display 3 = "" :=
  (C5_pref_change_reset_reclean storeW5 stW5).2.2.2 rfl rfl rfl rfl rfl rfl rfl 3
    (by decide) (by decide) (by decide)

/-! ## C6 -/

/-- C6: the navigation tick performs the whole reset synchronously (every
tagged attached element is restored and untagged, every reveal button is
removed) and only schedules the delayed passes, so the full navigation
event is exactly the four cleanSearch runs applied after the completed
reset: no queued pass precedes or interleaves with it. -/
theorem C6_nav_reset_before_passes (st : St) :
    ((navUrlChanged st).1 = resetHiddenState st)
    ∧ (∀ n, (st.gsc n).isSome = true → n ∈ (removeBtns st.doc).order →
        isElemN (removeBtns st.doc) n = true →
        (navUrlChanged st).1.gsc n = some "false" ∧ (navUrlChanged st).1.display n = "")
    ∧ (∀ n ∈ (navUrlChanged st).1.doc.order, isBtnNode (navUrlChanged st).1.doc n = false)
    ∧ navEvent st =
        cleanSearch (cleanSearch (cleanSearch (cleanSearch (resetHiddenState st)))) := by
  refine ⟨rfl, ?_, ?_, rfl⟩
  · intro n hg hord hel
    have hmem : n ∈ resetList (removeBtns st.doc) st.gsc := by
      apply List.mem_filter.mpr
      exact ⟨hord, by simp [hel, hg]⟩
    show (resetHiddenState st).gsc n = some "false" ∧ (resetHiddenState st).display n = ""
    rw [resetHiddenState_gsc, resetHiddenState_display, if_pos hmem, if_pos hmem]
    exact ⟨rfl, rfl⟩
  · intro n hmem
    have hmem2 : n ∈ (removeBtns st.doc).order := by
      have h0 : (navUrlChanged st).1.doc = removeBtns st.doc := resetHiddenState_doc st
      rwa [h0] at hmem
    show isBtnNode (resetHiddenState st).doc n = false
    rw [resetHiddenState_doc]
    exact mem_removeBtns_not_btn st.doc n hmem2

/-- Witness for C6: a concrete tagged node is restored by the synchronous
part of the navigation tick. -/
theorem C6_nav_reset_witness :
    (navUrlChanged stW6).1.gsc 4 = some "false" ∧ (navUrlChanged stW6).1.display 4 = "" :=
  (C6_nav_reset_before_passes stW6).2.1 4 (by decide) (by decide) (by decide)

/-! ## C7 -/

theorem addUnique_props (l : List Nat) (n : Nat) :
    ∀ found : List Nat,
      (found.Nodup → (addUnique found l).Nodup)
      ∧ (n ∈ addUnique found l ↔ n ∈ found ∨ n ∈ l) := by
  induction l with
  | nil =>
      intro found
      exact ⟨fun h => h, by simp [addUnique]⟩
  | cons x xs ih =>
      intro found
      have hstep : addUnique found (x :: xs) =
          addUnique (if found.contains x then found else found ++ [x]) xs := rfl
      by_cases hx : x ∈ found
      · have hc : found.contains x = true := by simpa using hx
        rw [hstep, if_pos hc]
        refine ⟨(ih found).1, ?_⟩
        rw [(ih found).2]
        constructor
        · rintro (h | h)
          · exact Or.inl h
          · exact Or.inr (List.mem_cons_of_mem _ h)
        · rintro (h | h)
          · exact Or.inl h
          · rcases List.mem_cons.mp h with h | h
            · exact Or.inl (h ▸ hx)
            · exact Or.inr h
      · have hc : ¬(found.contains x = true) := by
          intro hq
          exact hx (by simpa using hq)
        rw [hstep, if_neg hc]
        refine ⟨?_, ?_⟩
        · intro hnod
          exact (ih _).1 (by simp [List.nodup_append, hnod, hx])
        · rw [(ih _).2]
          simp only [List.mem_append, List.mem_cons, List.not_mem_nil, or_false]
          tauto

theorem findElements_aux (d : Doc) (n : Nat) :
    ∀ (arr : List SelectorSpec) (found : List Nat),
      (found.Nodup →
        (arr.foldl
          (fun found spec =>
            match spec with
            | .invalid => found
            | .ok s => addUnique found (querySelectorAll d s)) found).Nodup)
      ∧ (n ∈ arr.foldl
            (fun found spec =>
              match spec with
              | .invalid => found
              | .ok s => addUnique found (querySelectorAll d s)) found
          ↔ n ∈ found ∨ ∃ s : Sel, SelectorSpec.ok s ∈ arr ∧ n ∈ querySelectorAll d s) := by
  intro arr
  induction arr with
  | nil =>
      intro found
      constructor
      · exact fun h => h
      · simp
  | cons spec rest ih =>
      intro found
      cases spec with
      | invalid =>
          rw [List.foldl_cons]
          refine ⟨(ih found).1, ?_⟩
          rw [(ih found).2]
          constructor
          · rintro (h | ⟨s, hs, hq⟩)
            · exact Or.inl h
            · exact Or.inr ⟨s, List.mem_cons_of_mem _ hs, hq⟩
          · rintro (h | ⟨s, hs, hq⟩)
            · exact Or.inl h
            · rcases List.mem_cons.mp hs with h2 | h2
              · cases h2
              · exact Or.inr ⟨s, h2, hq⟩
      | ok s0 =>
          rw [List.foldl_cons]
          refine ⟨?_, ?_⟩
          · intro hnod
            exact (ih _).1 ((addUnique_props _ n _).1 hnod)
          · rw [(ih _).2, (addUnique_props (querySelectorAll d s0) n found).2]
            constructor
            · rintro ((h | h) | ⟨s, hs, hq⟩)
              · exact Or.inl h
              · exact Or.inr ⟨s0, List.mem_cons_self _ _, h⟩
              · exact Or.inr ⟨s, List.mem_cons_of_mem _ hs, hq⟩
            · rintro (h | ⟨s, hs, hq⟩)
              · exact Or.inl (Or.inl h)
              · rcases List.mem_cons.mp hs with h2 | h2
                · cases h2
                  exact Or.inl (Or.inr hq)
                · exact Or.inr ⟨s, h2, hq⟩

/-- C7: findElements returns the identity-deduplicated union of the
query results of the valid selectors of the list; an invalid selector is
skipped and never reduces the matches contributed by the valid ones. -/
theorem C7_findElements_contract (d : Doc) (arr : List SelectorSpec) (n : Nat) :
    (findElements d arr).Nodup
    ∧ (n ∈ findElements d arr ↔
        ∃ s : Sel, SelectorSpec.ok s ∈ arr ∧ n ∈ querySelectorAll d s) := by
  have h := findElements_aux d n arr []
  refine ⟨h.1 List.nodup_nil, ?_⟩
  have h2 : n ∈ findElements d arr ↔
      n ∈ ([] : List Nat) ∨ ∃ s : Sel, SelectorSpec.ok s ∈ arr ∧ n ∈ querySelectorAll d s :=
    h.2
  rw [h2]
  simp

/-! ## C8 -/

theorem findSome?_mem {α β : Type} (f : α → Option β) :
    ∀ (l : List α) (b : β), l.findSome? f = some b → ∃ a ∈ l, f a = some b := by
  intro l
  induction l with
  | nil => intro b h; simp [List.findSome?] at h
  | cons x xs ih =>
      intro b h
      have hc : List.findSome? f (x :: xs) =
          match f x with | some v => some v | none => List.findSome? f xs := rfl
      rw [hc] at h
      cases hfx : f x with
      | some v =>
          rw [hfx] at h
          exact ⟨x, by simp, by rw [hfx]; exact h⟩
      | none =>
          rw [hfx] at h
          obtain ⟨a, ha, hfa⟩ := ih b h
          exact ⟨a, by simp [ha], hfa⟩

/-- C8: the heuristic locator evaluates its four stages in order with
first-success-wins semantics; in the embedded-document stage the returned
node is the shadow host itself (a member of the host query whose inner
probe succeeded), and when all four stages fail the result is none. -/
theorem C8_locator_stages (d : Doc) :
    (∀ c, method1 d = some c → findAIOverviewContainer d = some c)
    ∧ (method1 d = none → ∀ h, method2 d = some h →
        findAIOverviewContainer d = some h ∧ h ∈ qsaMulti d shadowHostSels ∧
        (shadowProbe d h).isSome = true)
    ∧ (method1 d = none → method2 d = none → ∀ c, method3 d = some c →
        findAIOverviewContainer d = some c)
    ∧ (method1 d = none → method2 d = none → method3 d = none →
        findAIOverviewContainer d = method4 d)
    ∧ (method1 d = none → method2 d = none → method3 d = none → method4 d = none →
        findAIOverviewContainer d = none) := by
  refine ⟨?_, ?_, ?_, ?_, ?_⟩
  · intro c h1
    simp [findAIOverviewContainer, h1]
  · intro h1 h h2
    have h3 := findSome?_mem
      (fun host => if (shadowProbe d host).isSome then some host else none)
      (qsaMulti d shadowHostSels) h h2
    obtain ⟨a, ha, hfa⟩ := h3
    dsimp only at hfa
    by_cases hp : (shadowProbe d a).isSome = true
    · rw [if_pos hp] at hfa
      injection hfa with hah
      subst hah
      exact ⟨by simp [findAIOverviewContainer, h1, h2], ha, hp⟩
    · rw [if_neg hp] at hfa
      cases hfa
  · intro h1 h2 c h3
    simp [findAIOverviewContainer, h1, h2, h3]
  · intro h1 h2 h3
    simp [findAIOverviewContainer, h1, h2, h3]
  · intro h1 h2 h3 h4
    simp [findAIOverviewContainer, h1, h2, h3, h4]

/-- Witness for C8: on a document whose AI block carries the primary data
attribute, the attribute probe wins and the locator returns it. -/
theorem C8_locator_stages_witness : findAIOverviewContainer docC8 = some 3 :=
  (C8_locator_stages docC8).1 3 (by decide)

/-! ## C9 -/

theorem findSome?_if_map {α β : Type} (p : α → Bool) (g : α → β) :
    ∀ l : List α,
      l.findSome? (fun x => if p x then some (g x) else none) = (l.find? p).map g := by
  intro l
  induction l with
  | nil => rfl
  | cons x xs ih =>
      have hc : List.findSome? (fun x => if p x then some (g x) else none) (x :: xs) =
          match (if p x then some (g x) else none) with
          | some v => some v
          | none => List.findSome? (fun x => if p x then some (g x) else none) xs := rfl
      by_cases hp : p x = true
      · rw [hc, if_pos hp]
        have hf : List.find? p (x :: xs) = some x := by simp [List.find?, hp]
        rw [hf]
        rfl
      · have hpf : p x = false := by
          cases hq : p x
          · rfl
          · exact absurd hq hp
        rw [hc, if_neg hp]
        have hf : List.find? p (x :: xs) = List.find? p xs := by simp [List.find?, hpf]
        rw [hf, ih]

theorem method3_eq (d : Doc) :
    method3 d = ((qsaMulti d headingSelsAll).find? (fun h => aiHeadingMatch d h)).map
      (fun h =>
        match closestMulti d h closest3Sels with
        | some c => walkUpLoop d c (d.anc c)
        | none => fallbackUp d h 6 (d.anc h)) :=
  findSome?_if_map _ _ _

theorem walkUpLoop_spec (d : Doc) :
    ∀ (rest : List Nat) (p : Nat),
      ∃ j, (p :: rest).get? j = some (walkUpLoop d p rest) ∧
        (∀ i x, 1 ≤ i → i ≤ j → (p :: rest).get? i = some x →
          trackAttr d x = true ∧ isBoundaryId d x = false) ∧
        ((p :: rest).get? (j + 1) = none ∨
         ∃ y, (p :: rest).get? (j + 1) = some y ∧
           (isBoundaryId d y = true ∨ trackAttr d y = false)) := by
  intro rest
  induction rest with
  | nil =>
      intro p
      refine ⟨0, rfl, ?_, Or.inl rfl⟩
      intro i x h1 h2 h3
      omega
  | cons pp r ih =>
      intro p
      by_cases hb : isBoundaryId d pp = true
      · refine ⟨0, by simp [walkUpLoop, hb], ?_, ?_⟩
        · intro i x h1 h2 h3
          omega
        · exact Or.inr ⟨pp, rfl, Or.inl hb⟩
      · by_cases ht : trackAttr d pp = true
        · obtain ⟨j, hj1, hj2, hj3⟩ := ih pp
          have hval : walkUpLoop d p (pp :: r) = walkUpLoop d pp r := by
            simp [walkUpLoop, hb, ht]
          refine ⟨j + 1, ?_, ?_, ?_⟩
          · rw [List.get?_cons_succ, hval]
            exact hj1
          · intro i x h1 h2 h3
            cases i with
            | zero => omega
            | succ i' =>
                rw [List.get?_cons_succ] at h3
                cases i' with
                | zero =>
                    have hx : pp = x := by simpa using h3
                    subst hx
                    have hbf : isBoundaryId d pp = false := by
                      cases hq : isBoundaryId d pp
                      · rfl
                      · exact absurd hq hb
                    exact ⟨ht, hbf⟩
                | succ i'' =>
                    exact hj2 (i'' + 1) x (by omega) (by omega) h3
          · rcases hj3 with h | ⟨y, hy1, hy2⟩
            · exact Or.inl (by rw [List.get?_cons_succ]; exact h)
            · exact Or.inr ⟨y, by rw [List.get?_cons_succ]; exact hy1, hy2⟩
        · refine ⟨0, by simp [walkUpLoop, hb, ht], ?_, ?_⟩
          · intro i x h1 h2 h3
            omega
          · refine Or.inr ⟨pp, rfl, Or.inr ?_⟩
            cases hq : trackAttr d pp
            · rfl
            · exact absurd hq ht

theorem fallbackUp_spec (d : Doc) :
    ∀ (fuel : Nat) (rest : List Nat) (el : Nat),
      (∃ j, 1 ≤ j ∧ j ≤ min fuel rest.length ∧
        (el :: rest).get? j = some (fallbackUp d el fuel rest) ∧
        trackAttr d (fallbackUp d el fuel rest) = true ∧
        (∀ i x, 1 ≤ i → i < j → (el :: rest).get? i = some x → trackAttr d x = false))
      ∨ ((∀ i x, 1 ≤ i → i ≤ min fuel rest.length → (el :: rest).get? i = some x →
            trackAttr d x = false) ∧
         (el :: rest).get? (min fuel rest.length) = some (fallbackUp d el fuel rest)) := by
  intro fuel
  induction fuel with
  | zero =>
      intro rest el
      right
      constructor
      · intro i x h1 h2 h3
        simp only [Nat.zero_min] at h2
        omega
      · simp [Nat.zero_min, fallbackUp]
  | succ f ihf =>
      intro rest el
      cases rest with
      | nil =>
          right
          constructor
          · intro i x h1 h2 h3
            simp at h2
            omega
          · simp [fallbackUp]
      | cons p r =>
          have hmin : min (f + 1) (p :: r).length = min f r.length + 1 := by
            simp [List.length_cons, Nat.succ_min_succ]
          by_cases ht : trackAttr d p = true
          · left
            have hval : fallbackUp d el (f + 1) (p :: r) = p := by
              simp [fallbackUp, ht]
            refine ⟨1, le_refl 1, ?_, ?_, ?_, ?_⟩
            · rw [hmin]; omega
            · rw [hval]; rfl
            · rw [hval]; exact ht
            · intro i x h1 h2 h3
              omega
          · have htf : trackAttr d p = false := by
              cases hq : trackAttr d p
              · rfl
              · exact absurd hq ht
            have hval : fallbackUp d el (f + 1) (p :: r) = fallbackUp d p f r := by
              simp [fallbackUp, ht]
            rcases ihf r p with ⟨j, hj1, hj2, hj3, hj4, hj5⟩ | ⟨h1, h2⟩
            · left
              refine ⟨j + 1, by omega, ?_, ?_, ?_, ?_⟩
              · rw [hmin]; omega
              · rw [List.get?_cons_succ, hval]
                exact hj3
              · rw [hval]; exact hj4
              · intro i x hi1 hi2 hi3
                cases i with
                | zero => omega
                | succ i' =>
                    rw [List.get?_cons_succ] at hi3
                    cases i' with
                    | zero =>
                        have hx : p = x := by simpa using hi3
                        subst hx
                        exact htf
                    | succ i'' =>
                        exact hj5 (i'' + 1) x (by omega) (by omega) hi3
            · right
              constructor
              · intro i x hi1 hi2 hi3
                rw [hmin] at hi2
                cases i with
                | zero => omega
                | succ i' =>
                    rw [List.get?_cons_succ] at hi3
                    cases i' with
                    | zero =>
                        have hx : p = x := by simpa using hi3
                        subst hx
                        exact htf
                    | succ i'' =>
                        exact h1 (i'' + 1) x (by omega) (by omega) hi3
              · rw [hmin, List.get?_cons_succ, hval]
                exact h2

/-- C9: when the heading scan finds its first matching heading, the
heading-text stage returns the upward walk from the closest attributed
ancestor, which stops at the outermost tracking-attributed ancestor or at
the child of the first results-region boundary, whichever comes first;
with no attributed ancestor it takes at most six plain steps up from the
heading, returning early at the first tracking-attributed node. -/
theorem C9_heading_walk (d : Doc) (h : Nat)
    (hfind : (qsaMulti d headingSelsAll).find? (fun x => aiHeadingMatch d x) = some h) :
    (∀ c, closestMulti d h closest3Sels = some c →
      method3 d = some (walkUpLoop d c (d.anc c)) ∧
      WalkSpec d c (walkUpLoop d c (d.anc c)))
    ∧ (closestMulti d h closest3Sels = none →
      method3 d = some (fallbackUp d h 6 (d.anc h)) ∧
      FallbackSpec d h (fallbackUp d h 6 (d.anc h))) := by
  constructor
  · intro c hc
    constructor
    · rw [method3_eq, hfind]
      simp [hc]
    · exact walkUpLoop_spec d (d.anc c) c
  · intro hc
    constructor
    · rw [method3_eq, hfind]
      simp [hc]
    · exact fallbackUp_spec d 6 (d.anc h) h

/-- Witness for C9: on the concrete document the first AI Overview heading
is found, its closest attributed ancestor is the heading itself, and the
walk stops as the child of the rso boundary. -/
theorem C9_heading_walk_witness :
    method3 docC9 = some (walkUpLoop docC9 10 (docC9.anc 10)) ∧
    WalkSpec docC9 10 (walkUpLoop docC9 10 (docC9.anc 10)) :=
  (C9_heading_walk docC9 10 (by decide)).1 10 (by decide)

/-! ## C4: stage lemmas and idempotence of the AI-free pass -/

theorem stage2_doc (p : Prefs) (s : St) : (stage2 p s).doc = s.doc := by
  unfold stage2; split
  · exact cleanForums_doc s
  · rfl

theorem stage3_doc (p : Prefs) (s : St) : (stage3 p s).doc = s.doc := by
  unfold stage3; split
  · exact cleanPAA_doc s
  · rfl

theorem stage4_doc (p : Prefs) (s : St) : (stage4 p s).doc = s.doc := by
  unfold stage4; split
  · exact cleanShopping_doc s
  · rfl

theorem stage5_doc (p : Prefs) (s : St) : (stage5 p s).doc = s.doc := by
  unfold stage5; split
  · exact cleanVideos_doc s
  · rfl

theorem stage6_doc (p : Prefs) (s : St) : (stage6 p s).doc = s.doc := by
  unfold stage6; split
  · exact cleanSponsored_doc s
  · rfl

theorem stage2_mono (p : Prefs) (s : St) (e : Option Nat) (h : doneTgt s e) :
    doneTgt (stage2 p s) e := by
  unfold stage2; split
  · exact cleanForums_done_mono s e h
  · exact h

theorem stage3_mono (p : Prefs) (s : St) (e : Option Nat) (h : doneTgt s e) :
    doneTgt (stage3 p s) e := by
  unfold stage3; split
  · exact cleanPAA_done_mono s e h
  · exact h

theorem stage4_mono (p : Prefs) (s : St) (e : Option Nat) (h : doneTgt s e) :
    doneTgt (stage4 p s) e := by
  unfold stage4; split
  · exact cleanShopping_done_mono s e h
  · exact h

theorem stage5_mono (p : Prefs) (s : St) (e : Option Nat) (h : doneTgt s e) :
    doneTgt (stage5 p s) e := by
  unfold stage5; split
  · exact cleanVideos_done_mono s e h
  · exact h

theorem stage6_mono (p : Prefs) (s : St) (e : Option Nat) (h : doneTgt s e) :
    doneTgt (stage6 p s) e := by
  unfold stage6; split
  · exact cleanSponsored_done_mono s e h
  · exact h

theorem stage2_noop (p : Prefs) (s : St) (h : p.hideForums = true → forumsDone s.doc s) :
    stage2 p s = s := by
  unfold stage2; split
  · exact cleanForums_noop s (h (by assumption))
  · rfl

theorem stage3_noop (p : Prefs) (s : St) (h : p.hidePeopleAlsoAsk = true → paaDone s.doc s) :
    stage3 p s = s := by
  unfold stage3; split
  · exact cleanPAA_noop s (h (by assumption))
  · rfl

theorem stage4_noop (p : Prefs) (s : St) (h : p.hideShopping = true → shoppingDone s.doc s) :
    stage4 p s = s := by
  unfold stage4; split
  · exact cleanShopping_noop s (h (by assumption))
  · rfl

theorem stage5_noop (p : Prefs) (s : St) (h : p.hideVideos = true → videosDone s.doc s) :
    stage5 p s = s := by
  unfold stage5; split
  · exact cleanVideos_noop s (h (by assumption))
  · rfl

theorem stage6_noop (p : Prefs) (s : St) (h : p.hideSponsored = true → sponsoredDone s.doc s) :
    stage6 p s = s := by
  unfold stage6; split
  · exact cleanSponsored_noop s (h (by assumption))
  · rfl

theorem stage2_est (p : Prefs) (s : St) (hc : p.hideForums = true) :
    forumsDone s.doc (stage2 p s) := by
  unfold stage2; rw [if_pos hc]
  exact cleanForums_est s

theorem stage3_est (p : Prefs) (s : St) (hc : p.hidePeopleAlsoAsk = true) :
    paaDone s.doc (stage3 p s) := by
  unfold stage3; rw [if_pos hc]
  exact cleanPAA_est s

theorem stage4_est (p : Prefs) (s : St) (hc : p.hideShopping = true) :
    shoppingDone s.doc (stage4 p s) := by
  unfold stage4; rw [if_pos hc]
  exact cleanShopping_est s

theorem stage5_est (p : Prefs) (s : St) (hc : p.hideVideos = true) :
    videosDone s.doc (stage5 p s) := by
  unfold stage5; rw [if_pos hc]
  exact cleanVideos_est s

theorem stage6_est (p : Prefs) (s : St) (hc : p.hideSponsored = true) :
    sponsoredDone s.doc (stage6 p s) := by
  unfold stage6; rw [if_pos hc]
  exact cleanSponsored_est s

theorem passNoAI_doc (p : Prefs) (s : St) : (passNoAI p s).doc = s.doc := by
  unfold passNoAI
  rw [stage6_doc, stage5_doc, stage4_doc, stage3_doc, stage2_doc]

theorem passNoAI_idem (p : Prefs) (st : St) :
    passNoAI p (passNoAI p st) = passNoAI p st := by
  have d2 : (stage2 p st).doc = st.doc := stage2_doc p st
  have d3 : (stage3 p (stage2 p st)).doc = st.doc := by rw [stage3_doc, d2]
  have d4 : (stage4 p (stage3 p (stage2 p st))).doc = st.doc := by rw [stage4_doc, d3]
  have d5 : (stage5 p (stage4 p (stage3 p (stage2 p st)))).doc = st.doc := by
    rw [stage5_doc, d4]
  have dT : (passNoAI p st).doc = st.doc := passNoAI_doc p st
  have mono3T : ∀ (s : St) (e : Option Nat), doneTgt s e →
      doneTgt (stage6 p (stage5 p (stage4 p (stage3 p s)))) e := fun s e h =>
    stage6_mono p _ e (stage5_mono p _ e (stage4_mono p _ e (stage3_mono p s e h)))
  have mono4T : ∀ (s : St) (e : Option Nat), doneTgt s e →
      doneTgt (stage6 p (stage5 p (stage4 p s))) e := fun s e h =>
    stage6_mono p _ e (stage5_mono p _ e (stage4_mono p s e h))
  have mono5T : ∀ (s : St) (e : Option Nat), doneTgt s e →
      doneTgt (stage6 p (stage5 p s)) e := fun s e h =>
    stage6_mono p _ e (stage5_mono p s e h)
  have mono6T : ∀ (s : St) (e : Option Nat), doneTgt s e → doneTgt (stage6 p s) e :=
    fun s e h => stage6_mono p s e h
  have e2 : p.hideForums = true → forumsDone st.doc (passNoAI p st) := by
    intro hc
    obtain ⟨ha, hb⟩ := stage2_est p st hc
    exact ⟨fun el hel => mono3T _ _ (ha el hel), fun el hel => mono3T _ _ (hb el hel)⟩
  have e3 : p.hidePeopleAlsoAsk = true → paaDone st.doc (passNoAI p st) := by
    intro hc
    have h0 := stage3_est p (stage2 p st) hc
    rw [d2] at h0
    obtain ⟨ha, hb⟩ := h0
    exact ⟨fun el hel => mono4T _ _ (ha el hel), fun el hel => mono4T _ _ (hb el hel)⟩
  have e4 : p.hideShopping = true → shoppingDone st.doc (passNoAI p st) := by
    intro hc
    have h0 := stage4_est p (stage3 p (stage2 p st)) hc
    rw [d3] at h0
    exact fun el hel => mono5T _ _ (h0 el hel)
  have e5 : p.hideVideos = true → videosDone st.doc (passNoAI p st) := by
    intro hc
    have h0 := stage5_est p (stage4 p (stage3 p (stage2 p st))) hc
    rw [d4] at h0
    obtain ⟨ha, hb⟩ := h0
    exact ⟨fun el hel => mono6T _ _ (ha el hel), fun el hel => mono6T _ _ (hb el hel)⟩
  have e6 : p.hideSponsored = true → sponsoredDone st.doc (passNoAI p st) := by
    intro hc
    have h0 := stage6_est p (stage5 p (stage4 p (stage3 p (stage2 p st)))) hc
    rw [d5] at h0
    exact fun el hel => h0 el hel
  have q2 : stage2 p (passNoAI p st) = passNoAI p st :=
    stage2_noop p _ (fun hc => by rw [dT]; exact e2 hc)
  have q3 : stage3 p (passNoAI p st) = passNoAI p st :=
    stage3_noop p _ (fun hc => by rw [dT]; exact e3 hc)
  have q4 : stage4 p (passNoAI p st) = passNoAI p st :=
    stage4_noop p _ (fun hc => by rw [dT]; exact e4 hc)
  have q5 : stage5 p (passNoAI p st) = passNoAI p st :=
    stage5_noop p _ (fun hc => by rw [dT]; exact e5 hc)
  have q6 : stage6 p (passNoAI p st) = passNoAI p st :=
    stage6_noop p _ (fun hc => by rw [dT]; exact e6 hc)
  show stage6 p (stage5 p (stage4 p (stage3 p (stage2 p (passNoAI p st))))) = passNoAI p st
  rw [q2, q3, q4, q5, q6]

theorem cleanSearch_eq_passNoAI (s : St) (hpaid : s.prefs.isPaid = true)
    (hAI : s.prefs.hideAI = false) : cleanSearch s = passNoAI s.prefs s := by
  simp [cleanSearch, passNoAI, stage2, stage3, stage4, stage5, stage6, hpaid, hAI]

/-! ## C4 -/

/-- C4 counterexample: with hideAI enabled, the reveal button inserted by
the first pass changes the text of the first AI Overview heading, so the
second pass locates a different container via the heading-text stage and
hides an additional node: the document state after two passes differs from
the state after one. -/
theorem C4_counterexample :
    (cleanSearch exC4).gsc 20 = none ∧
    (cleanSearch exC4).display 20 = "" ∧
    (cleanSearch (cleanSearch exC4)).gsc 20 = some "true" ∧
    (cleanSearch (cleanSearch exC4)).display 20 = "none" := by
  refine ⟨?_, ?_, ?_, ?_⟩ <;> decide

/-- C4 (amended): cleanSearch is idempotent on an unchanged document for
every preference set whose hideAI flag is off: the second run finds every
candidate already tagged true or guard-denied and changes nothing.  When
hideAI is on, the reveal affordance inserted by the first pass mutates the
document and a second pass can hide an additional node (no second
affordance is inserted for an already hidden container, but the
heading-text fallback can locate a new container). -/
theorem C4_amended_idempotent (st : St) (hAI : st.prefs.hideAI = false) :
    cleanSearch (cleanSearch st) = cleanSearch st := by
  by_cases hpaid : st.prefs.isPaid = true
  · have h1 : cleanSearch st = passNoAI st.prefs st := cleanSearch_eq_passNoAI st hpaid hAI
    have hTprefs : (cleanSearch st).prefs = st.prefs := cleanSearch_prefs st
    have h2 : cleanSearch (cleanSearch st) =
        passNoAI (cleanSearch st).prefs (cleanSearch st) :=
      cleanSearch_eq_passNoAI _ (by rw [hTprefs]; exact hpaid) (by rw [hTprefs]; exact hAI)
    rw [h2, hTprefs, h1]
    exact passNoAI_idem st.prefs st
  · have h0 : st.prefs.isPaid = false := by
      cases hq : st.prefs.isPaid
      · rfl
      · exact absurd hq hpaid
    have hcs : cleanSearch st = st := by simp [cleanSearch, h0]
    rw [hcs, hcs]

/-- Witness for the amended C4: a concrete paid state with the shopping
category enabled (hideAI off) on a document containing a shopping unit is
a fixed point of the second pass. -/
theorem C4_amended_idempotent_witness :
    cleanSearch (cleanSearch stW4) = cleanSearch stW4 :=
  C4_amended_idempotent stW4 rfl

end GSC
